import Mathlib

/-!
# Shallow embedding of the vs1053_SdFat driver (src/src/vs1053_SdFat.cpp)

This file embeds, as executable Lean definitions, the parts of the VS1053
audio-chip driver that the verified properties speak about:

* the busy-code / session state machine (`isBusy`, `play`, `recordOgg`,
  `pauseMusic`, `resumeMusic`, `skip`, `skipTo`);
* the register-access protocol (`Mp3WriteRegisterFull`, `Mp3ReadRegisterFull`,
  `mp3ReadWRAM16`, `mp3WriteWRAM16`);
* the cancel/flush recovery protocol (`cancelDecoding`, `flush_cancel`,
  `fillEnd`);
* the streaming-engine refill cycle (`refill`);
* the container/frame scanners (`getBitRateFromMP3File`, `getOggInfo`).

Modelling conventions:

* Machine integers are `Nat` with explicit `% 2^w` where C overflow or
  truncation matters (`uint16_t` fields, `uint32_t` seek arithmetic).
* The chip is an external collaborator.  It is modelled by a `Chip` record of
  response streams: the reset and DREQ pin levels, the successive values read
  back from `SCI_MODE` (this is the stream the cancel handshake polls), a
  static value map for the other registers and for WRAM parameter cells, and
  the successive values of the raw in-loop `SCI_DECODE_TIME` read.
* Block storage is modelled by the byte image of the open file (`Track`);
  open/seek/read/close update an explicit position and emit trace events.
  Outcomes of fallible collaborator calls (file open) are passed as
  parameters.
* Every bus or storage interaction appends an `Ev` event to a trace, at the
  granularity of one framed transaction (one 4-byte SCI transaction, one
  data-select feed frame, one storage call).
* Busy-waits on the chip-ready line (`while(!digitalRead(MP3_DREQ));`) are
  modelled as instantaneous: the spec (§5) accepts that a wedged chip hangs
  the caller, and no claim is about that hang.
* `while` loops whose iteration count depends on collaborator responses are
  given explicit fuel and return `Option`; `none` means the fuel budget was
  exhausted (a modelling artifact, never hit by the theorems below) or that
  the source would have performed undefined behavior (an out-of-bounds
  buffer access or a division by zero, each marked where it occurs).
* Values defined only in the missing header (`vs1053_SdFat.h` is not under
  `src/`) are modelled from the spec and marked `Modelled from the spec:` at
  their definition.
-/

namespace vs1053

/-! ## Register and bit constants

The numeric register addresses and mode bits are defined in the missing
header.  Their concrete values never matter to the claims (they are only used
as keys and single-bit masks); the values below follow the VS10xx register
map the spec's bus-protocol section describes. -/

/-- Modelled from the spec: SCI register addresses (missing header). -/
def SCI_MODE : Nat := 0x00

def SCI_STATUS : Nat := 0x01

def SCI_BASS : Nat := 0x02

def SCI_CLOCKF : Nat := 0x03

def SCI_DECODE_TIME : Nat := 0x04

def SCI_WRAM : Nat := 0x06

def SCI_WRAMADDR : Nat := 0x07

def SCI_HDAT0 : Nat := 0x08

def SCI_HDAT1 : Nat := 0x09

def SCI_AIADDR : Nat := 0x0A

def SCI_VOL : Nat := 0x0B

def SCI_AICTRL1 : Nat := 0x0D

def SCI_AICTRL2 : Nat := 0x0E

def SCI_AICTRL3 : Nat := 0x0F

/-- Modelled from the spec: `SM_RESET`, the soft-reset bit of `SCI_MODE`
(missing header). -/
def SM_RESET : Nat := 0x0004

/-- Modelled from the spec: `SM_CANCEL`, the cancel-request bit of `SCI_MODE`
(missing header). -/
def SM_CANCEL : Nat := 0x0008

/-- Modelled from the spec: `SM_LAYER12` bit of `SCI_MODE` (missing header). -/
def SM_LAYER12 : Nat := 0x0002

/-- Modelled from the spec: `SM_ADPCM` bit of `SCI_MODE` (missing header). -/
def SM_ADPCM : Nat := 0x1000

/-- Modelled from the spec: `SM_LINE1` bit of `SCI_MODE` (missing header). -/
def SM_LINE1 : Nat := 0x4000

/-- Modelled from the spec: WRAM parametric address of the play-speed cell
(missing header). -/
def para_playSpeed : Nat := 0x1E04

/-- Modelled from the spec: WRAM parametric address of the average byte-rate
cell (missing header). -/
def para_byteRate : Nat := 0x1E05

/-- Modelled from the spec: WRAM parametric address of the end-fill-byte cell
(missing header). -/
def para_endFillByte : Nat := 0x1E06

/-- Modelled from the spec: WRAM address of the interrupt-enable cell
(missing header). -/
def para_interrupt : Nat := 0xC01A

/-- Modelled from the spec: the accelerated play-speed multiplier used while
skipping (missing header). -/
def SKIPPING_SPEED : Nat := 4

/-- Modelled from the spec: `BUFFER_SIZE`, the capacity of `mp3DataBuffer`
(missing header).  Spec §3 describes a fixed capacity of a few hundred bytes,
moved to the chip in 32-byte quanta; we use 256, a multiple of the 32-byte
quantum and at least as large as the scanners' 16-byte straddle window. -/
def BUFFER_SIZE : Nat := 256

/-- The bitrate lookup table (source lines 33-49), 15 rows of 6 columns. -/
def bitrate_table : List (List Nat) :=
  [[0, 0, 0, 0, 0, 0],
   [32, 32, 32, 32, 8, 8],
   [64, 48, 40, 48, 16, 16],
   [96, 56, 48, 56, 24, 24],
   [128, 64, 56, 64, 32, 32],
   [160, 80, 64, 80, 40, 40],
   [192, 96, 80, 96, 48, 48],
   [224, 112, 96, 112, 56, 56],
   [256, 128, 112, 128, 64, 64],
   [288, 160, 128, 144, 80, 80],
   [320, 192, 160, 160, 96, 69],
   [352, 224, 192, 176, 112, 112],
   [384, 256, 224, 192, 128, 128],
   [416, 320, 256, 224, 144, 144],
   [448, 384, 320, 256, 160, 160]]

/-- Guarded lookup for the source expression `bitrate_table[code][row]`
(line 1884): `none` when the index pair is outside the 15-row, 6-column
table, which in the source is an out-of-bounds flash read. -/
def bitrateLookup (code row : Nat) : Option Nat :=
  (bitrate_table.get? code).bind fun r => r.get? row

/-! ## Enumerated types (missing header; value lists from the spec / source usage) -/

/-- The session state enumeration `state_m` (spec §4.2 state list). -/
inductive state_m where
  | uninitialized
  | initialized
  | ready
  | playback
  | paused_playback
  | recording
  | finishing
  | cancelling
  | skipping
  | loading
  | testing_sinewave
  | testing_memory
  | playMIDIbeep
deriving DecidableEq, Repr

/-- The track format enumeration `format_m` (source `getTrackFormat`). -/
inductive format_m where
  | mp3
  | aac
  | wma
  | wav
  | fla
  | mid
  | ogg
  | unknownFormat
deriving DecidableEq, Repr

/-- The flush mode enumeration `flush_m` (source `flush_cancel`). -/
inductive flush_m where
  | post
  | pre
  | both
  | nothing
deriving DecidableEq, Repr

/-! ## Traces, storage, chip, machine state -/

/-- One observable collaborator interaction.  `sciWrite`/`sciRead` are single
framed 4-byte control transactions; `feed n` is one data-select frame of `n`
bytes; the `st*` events are single storage-collaborator calls. -/
inductive Ev where
  | sciWrite (addr val : Nat)
  | sciRead (addr : Nat)
  | feed (n : Nat)
  | stOpen (forWrite : Bool)
  | stRead (n : Nat)
  | stSeek (off : Nat)
  | stClose
deriving DecidableEq, Repr

/-- The open-file side of the storage collaborator: the byte image of the
file backing the static `SdFile track`, its open flag and read position. -/
structure Track where
  isOpen : Bool
  pos : Nat
  data : List Nat
deriving DecidableEq, Repr

/-- The chip collaborator, as response streams (see the header comment). -/
structure Chip where
  resetHigh : Bool
  dreq : Nat → Bool
  modeSeq : Nat → Nat
  regVal : Nat → Nat
  wramVal : Nat → Nat
  decodeTime : Nat → Nat

/-- The driver's static state (the `vs1053` class statics), the open track,
the transfer buffer, the chip-stream cursors and the event trace. -/
structure Mach where
  playing_state : state_m
  isPatched : Bool
  isSkipping : Bool
  isRecordingStereo : Bool
  trackFormat : format_m
  bitrate : Nat
  duration : Nat
  position : Nat
  skipToPosition : Nat
  start_of_music : Nat
  VolL : Nat
  VolR : Nat
  bufferOffset : Nat
  buf : List Nat
  registers_backup : List Nat
  track : Track
  dreqIx : Nat
  modeIx : Nat
  dtIx : Nat
  trace : List Ev
deriving DecidableEq, Repr

/-- Append one event to the trace. -/
def emit (m : Mach) (e : Ev) : Mach :=
  {m with trace := m.trace ++ [e]}

/-! ## Storage primitives (SdFile semantics at the interface of spec §6) -/

/-- `track.read()` one byte: the byte and the advanced position, or `none`
(EOF, position unchanged; the source receives `-1`). -/
def trackRead1 (d : List Nat) (p : Nat) : Option Nat × Nat :=
  match d.get? p with
  | some b => (some b, p + 1)
  | none => (none, p)

/-- `track.read(buf, n)`: returns the byte count actually read (0 at EOF),
the buffer with its first `count` bytes replaced (the tail keeps its previous
contents, as a short C read leaves the rest of the caller's buffer alone) and
the advanced position. -/
def trackReadBuf (d : List Nat) (p n : Nat) (old : List Nat) :
    Nat × List Nat × Nat :=
  let cnt := min n (d.length - p)
  (cnt, (d.drop p).take cnt ++ old.drop cnt, p + cnt)

/-- Buffer-chunk read into `mp3DataBuffer`, with its trace event. -/
def trackReadBufM (n : Nat) (m : Mach) : Nat × Mach :=
  let r := trackReadBuf m.track.data m.track.pos n m.buf
  (r.1, emit {m with buf := r.2.1, track := {m.track with pos := r.2.2}}
    (.stRead r.1))

/-- `track.read(x.byte, 2)` of a little-endian `union twobyte` word.  A fully
failed read is `none` (the source breaks on it); on a 1-byte read the stale
high byte of the union is indeterminate in C and modelled as 0 (never hit by
the theorems below). -/
def trackRead2 (m : Mach) : Option Nat × Mach :=
  let bytes := (m.track.data.drop m.track.pos).take 2
  if bytes.length == 0 then (none, emit m (.stRead 0))
  else
    (some (bytes.getD 0 0 ||| (bytes.getD 1 0) <<< 8),
     emit {m with track := {m.track with pos := m.track.pos + bytes.length}}
       (.stRead bytes.length))

/-- `track.open(name, mode)`: the open outcome is a collaborator parameter;
on success the track becomes the given byte image at position 0. -/
def trackOpenM (ok : Bool) (d : List Nat) (forWrite : Bool) (m : Mach) :
    Bool × Mach :=
  if ok then
    (true, emit {m with track := ⟨true, 0, d⟩} (.stOpen forWrite))
  else (false, emit m (.stOpen forWrite))

/-- `track.seekSet(off)`: the offset argument is `uint32_t`; the seek fails
(and the position is unchanged) past the end of a read file. -/
def seekSetM (off : Nat) (m : Mach) : Bool × Mach :=
  let off32 := off % 4294967296
  if off32 ≤ m.track.data.length then
    (true, emit {m with track := {m.track with pos := off32}} (.stSeek off32))
  else (false, emit m (.stSeek off32))

/-- `track.close()`. -/
def closeM (m : Mach) : Mach :=
  emit {m with track := {m.track with isOpen := false}} .stClose

/-! ## Frame-header bitrate scan (`getBitRateFromMP3File`, source 1851-1905) -/

/-- The tail of a successful sync match (source 1879-1900): read the third
header byte, take its high nibble as the bitrate code, look the bitrate up in
`bitrate_table` (out of bounds for code 15: `none`), convert kbps to bytes
per millisecond, then `seekCur(-3)` and record `start_of_music` there.  The
`uint8_t` cast turns an EOF read (-1) into 0xFF. -/
def mp3ScanHit (d : List Nat) (p row : Nat) :
    Option (Option (Nat × Nat) × Nat) :=
  let r := trackRead1 d p
  let temp := (r.1.getD 0xFF) >>> 4
  match bitrateLookup temp row with
  | none => none
  | some kbps => some (some (kbps / 8, r.2 - 3), r.2 - 3)

/-- The bounded sync-scan loop (source 1857-1904), `budget` counting the
remaining iterations of `for(uint16_t i = 0; i < 65535; i++)`.  The result is
`some (hit?, finalPos)` where `hit? = some (bitrate, start_of_music)` when a
frame header was decoded, and `none` when the source would perform the
out-of-bounds `bitrate_table` access.  The top-level `track.read() == 0xFF`
comparison is an `int` comparison, so an EOF read (-1) never matches; the
inner `uint8_t temp = track.read()` casts EOF to 0xFF.  `row_num` is 0
whenever the layer branches are reached (the only assignment to it is
immediately followed by the hit path), so it is passed directly.  The
version-1 layer-1 combination falls through to `continue` in the source. -/
def mp3ScanLoop (d : List Nat) : Nat → Nat → Option (Option (Nat × Nat) × Nat)
  | 0, p => some (none, p)
  | budget + 1, p =>
    match trackRead1 d p with
    | (some 0xFF, p1) =>
      let r := trackRead1 d p1
      let temp := r.1.getD 0xFF
      if (temp &&& 0xE0) == 0xE0 && (temp &&& 0x06) != 0 then
        if temp &&& 0x08 == 0 then mp3ScanHit d r.2 3
        else if (temp &&& 0x06) == 0x04 then mp3ScanHit d r.2 1
        else if (temp &&& 0x06) == 0x02 then mp3ScanHit d r.2 2
        else mp3ScanLoop d budget r.2
      else mp3ScanLoop d budget r.2
    | (_, p1) => mp3ScanLoop d budget p1

/-- `getBitRateFromMP3File` (source 1851-1905): clears `bitrate` to 0 at
entry (line 1853), then scans; a decoded header overwrites `bitrate` (bytes
per ms) and `start_of_music`.  The scanner's storage reads are modelled by
direct access to the file image. -/
def getBitRateFromMP3File (m : Mach) : Option Mach :=
  match mp3ScanLoop m.track.data 65535 m.track.pos with
  | none => none
  | some (some (br, som), pfin) =>
    some {m with bitrate := br, start_of_music := som,
                 track := {m.track with pos := pfin}}
  | some (none, pfin) =>
    some {m with bitrate := 0, track := {m.track with pos := pfin}}

/-! ## OGG container scans (`getOggInfo`, source 1920-2009) -/

/-- The comment-header marker `{0x01, 'v', 'o', 'r', 'b', 'i', 's'}`. -/
def oggHeader1 : List Nat := [0x01, 0x76, 0x6F, 0x72, 0x62, 0x69, 0x73]

/-- The end-page marker `{'O', 'g', 'g', 'S', 0x00, 0x04}`. -/
def oggHeader2 : List Nat := [0x4F, 0x67, 0x67, 0x53, 0x00, 0x04]

/-- `memcmp(pat, &buf[off], pat.length) == 0`. -/
def bufMatch (buf pat : List Nat) (off : Nat) : Bool :=
  (List.range pat.length).all fun j => buf.get? (off + j) == pat.get? j

/-- Result of the inner `for` scan over one buffer window: `abort` marks the
out-of-bounds `&mp3DataBuffer[i - 1]` access at `i = 0` (undefined behavior
in the source); `found off buf pos` is a computed non-negative `offset`
(after a possible straddle re-read); `noMatch buf pos` leaves `offset` at
-1. -/
inductive ScanFor where
  | abort
  | found (off : Nat) (buf : List Nat) (pos : Nat)
  | noMatch (buf : List Nat) (pos : Nat)
deriving DecidableEq, Repr

/-- The inner `for` loop of the comment-header scan (source 1931-1946).
`left` is `BUFFER_SIZE - i`; `pos` is the current file position (just past
the window).  On a candidate `'v'` whose 7-byte match would overrun the
buffer, the source re-seeks to `curPosition - BUFFER_SIZE + i - 1`, re-reads
16 bytes, forces `i = 1` and performs a single match attempt. -/
def commentFor (d : List Nat) (buf : List Nat) (pos : Nat) :
    Nat → Nat → ScanFor
  | 0, _ => .noMatch buf pos
  | left + 1, i =>
    if buf.get? i == some 0x76 then
      if i + oggHeader1.length - 1 > BUFFER_SIZE then
        let r := trackReadBuf d (pos - BUFFER_SIZE + i - 1) 16 buf
        if bufMatch r.2.1 oggHeader1 0 then .found 11 r.2.1 r.2.2
        else .noMatch r.2.1 r.2.2
      else if i == 0 then .abort
      else if bufMatch buf oggHeader1 (i - 1) then .found (i + 10) buf pos
      else commentFor d buf pos left (i + 1)
    else commentFor d buf pos left (i + 1)

/-- The comment-header `while` loop of `getOggInfo` (source 1929-1961).
Returns `some (channelNumber, sampleRate, buf, pos)`: the fixed-offset
fields after a match (little-endian 32-bit sample rate), or both 0 when the
file is exhausted first, exactly as the source's initial values propagate.
`none` is fuel exhaustion or the `i = 0` out-of-bounds access. -/
def commentScanLoop (d : List Nat) :
    Nat → List Nat → Nat → Option (Nat × Nat × List Nat × Nat)
  | 0, _, _ => none
  | fuel + 1, buf, pos =>
    let r := trackReadBuf d pos BUFFER_SIZE buf
    if r.1 == 0 then some (0, 0, r.2.1, r.2.2)
    else
      match commentFor d r.2.1 r.2.2 BUFFER_SIZE 0 with
      | .abort => none
      | .noMatch buf2 p2 => commentScanLoop d fuel buf2 p2
      | .found off buf2 p2 =>
        let s :=
          if off + 4 ≥ BUFFER_SIZE then
            let r2 := trackReadBuf d (p2 - BUFFER_SIZE + off) 5 buf2
            (0, r2.2.1, r2.2.2)
          else (off, buf2, p2)
        some (s.2.1.getD s.1 0,
              (s.2.1.getD (s.1 + 4) 0) <<< 24 ||| (s.2.1.getD (s.1 + 3) 0) <<< 16 |||
                (s.2.1.getD (s.1 + 2) 0) <<< 8 ||| s.2.1.getD (s.1 + 1) 0,
              s.2.1, s.2.2)

/-- The inner `for` loop of the end-page scan (source 1970-1985).
`readOffset` is the window's start offset.  A candidate `'O'` whose 6-byte
match would overrun the buffer causes a re-seek to `readOffset + i` and a
14-byte re-read with `i = 0`. -/
def pageFor (d : List Nat) (readOffset : Nat) (buf : List Nat) (pos : Nat) :
    Nat → Nat → ScanFor
  | 0, _ => .noMatch buf pos
  | left + 1, i =>
    if buf.get? i == some 0x4F then
      if i + oggHeader2.length > BUFFER_SIZE then
        let r := trackReadBuf d (readOffset + i) 14 buf
        if bufMatch r.2.1 oggHeader2 0 then .found 6 r.2.1 r.2.2
        else .noMatch r.2.1 r.2.2
      else if bufMatch buf oggHeader2 i then .found (i + 6) buf pos
      else pageFor d readOffset buf pos left (i + 1)
    else pageFor d readOffset buf pos left (i + 1)

/-- The end-page `while` loop of `getOggInfo` (source 1966-2005), walking
windows backwards while `curPosition >= BUFFER_SIZE`.  Returns
`some (sampleNumber, buf, pos)`, with `sampleNumber = 0` when no window
matches (the initial value propagates). -/
def pageScanLoop (d : List Nat) :
    Nat → List Nat → Nat → Option (Nat × List Nat × Nat)
  | 0, _, _ => none
  | fuel + 1, buf, pos =>
    if pos < BUFFER_SIZE then some (0, buf, pos)
    else
      let readOffset := pos
      let r := trackReadBuf d pos BUFFER_SIZE buf
      match pageFor d readOffset r.2.1 r.2.2 BUFFER_SIZE 0 with
      | .abort => none
      | .noMatch buf2 _ => pageScanLoop d fuel buf2 (readOffset - BUFFER_SIZE)
      | .found off buf2 p2 =>
        let s :=
          if off + 7 ≥ BUFFER_SIZE then
            let r2 := trackReadBuf d (p2 - BUFFER_SIZE + off) 8 buf2
            (0, r2.2.1, r2.2.2)
          else (off, buf2, p2)
        some ((s.2.1.getD (s.1 + 7) 0) <<< 56 ||| (s.2.1.getD (s.1 + 6) 0) <<< 48 |||
                (s.2.1.getD (s.1 + 5) 0) <<< 40 ||| (s.2.1.getD (s.1 + 4) 0) <<< 32 |||
                (s.2.1.getD (s.1 + 3) 0) <<< 24 ||| (s.2.1.getD (s.1 + 2) 0) <<< 16 |||
                (s.2.1.getD (s.1 + 1) 0) <<< 8 ||| s.2.1.getD s.1 0,
              s.2.1, s.2.2)

/-- `getOggInfo` (source 1920-2009): `seekSet(0)`, the comment scan, then
`seekEnd()` followed by `seekSet(curPosition - BUFFER_SIZE)` (which fails
and leaves the position at EOF when the file is shorter than a window — the
`uint32_t` subtraction wraps to a seek past EOF), the page scan, then
`duration = (uint16_t)(sampleNumber / channelNumber / sampleRate)` and
`seekSet(0)`.  A zero channel count or sample rate makes the source divide
by zero: `none`.  The scanners' storage interactions are modelled by direct
access to the file image; the final repositioning shows in the track
position. -/
def getOggInfo (m : Mach) : Option Mach :=
  let d := m.track.data
  match commentScanLoop d (d.length + 2) m.buf 0 with
  | none => none
  | some (c, r, buf1, _) =>
    let p0 := if BUFFER_SIZE ≤ d.length then d.length - BUFFER_SIZE else d.length
    match pageScanLoop d (d.length / BUFFER_SIZE + 2) buf1 p0 with
    | none => none
    | some (s, buf2, _) =>
      if c == 0 || r == 0 then none
      else some {m with duration := s / c / r % 65536, buf := buf2,
                        track := {m.track with pos := 0}}

/-! ## Bus primitives

The source routes every register access through `Mp3WriteRegister` /
`Mp3ReadRegister` (source 2186-2242), which (a) are no-ops / return 0 when
the reset line is low, and (b) wrap the transaction in a pause/resume of the
streaming engine when `playing_state == playback`.  Inside the streaming
engine and the cancel protocol `playing_state` is never `playback` at a
register access (the engine switches the state before touching registers),
so there the wrapper reduces to the bare guarded transaction; the bare
transactions below model exactly that, and `Mp3WriteRegisterFull` /
`Mp3ReadRegisterFull` add the pause/resume wrapper for the API layer.
Lemmas `Mp3WriteRegisterFull_not_playback` and
`Mp3ReadRegisterFull_not_playback` record the reduction. -/

/-- Bare guarded SCI write transaction (source 2186-2200 without the
pause/resume): in reset it touches nothing, otherwise one framed 4-byte
write of the 16-bit value. -/
def sciWriteTx (c : Chip) (addr val : Nat) (m : Mach) : Mach :=
  if !c.resetHigh then m else emit m (.sciWrite addr (val % 65536))

/-- Bare guarded SCI read transaction (source 2219-2242 without the
pause/resume): in reset it returns 0 and touches nothing; a read of
`SCI_MODE` consumes the chip's mode-response stream, any other register
reads the static register map. -/
def sciReadTx (c : Chip) (addr : Nat) (m : Mach) : Nat × Mach :=
  if !c.resetHigh then (0, m)
  else if addr == SCI_MODE then
    (c.modeSeq m.modeIx % 65536, emit {m with modeIx := m.modeIx + 1} (.sciRead addr))
  else (c.regVal addr % 65536, emit m (.sciRead addr))

/-- `Mp3ReadWRAM(addr)` in its 16-bit form (source 2254-2257, the only form
the embedded call sites use): write `SCI_WRAMADDR`, read `SCI_WRAM`.  The
value returned by the `SCI_WRAM` read is the chip's WRAM cell selected by
the preceding address write, i.e. `c.wramVal addr`. -/
def mp3ReadWRAM16 (c : Chip) (addr : Nat) (m : Mach) : Nat × Mach :=
  let m1 := sciWriteTx c SCI_WRAMADDR addr m
  if !c.resetHigh then (0, m1)
  else (c.wramVal addr % 65536, emit m1 (.sciRead SCI_WRAM))

/-- `Mp3WriteWRAM(addr, data)` in its 16-bit form (source 2281-2285). -/
def mp3WriteWRAM16 (c : Chip) (addr val : Nat) (m : Mach) : Mach :=
  sciWriteTx c SCI_WRAM val (sciWriteTx c SCI_WRAMADDR addr m)

/-- One data-select frame of `n` bytes on the data channel (`dcs_low`,
`n` SPI transfers, `dcs_high`). -/
def feedData (n : Nat) (m : Mach) : Mach :=
  emit m (.feed n)

/-! ## Cancel/flush protocol (source 2550-2659) -/

/-- `fillEnd(fillingByte)` (source 2598-2610): one data frame of 2052
iterations of 32 transfers of the fill byte. -/
def fillEnd (m : Mach) : Mach :=
  feedData (2052 * 32) m

/-- One iteration's feed step of `cancelDecoding` (source 2559-2584):
either one 32-byte quantum of buffered track bytes — refilling
`mp3DataBuffer` from storage when exhausted, and past end-of-stream reading
the chip's end-fill byte (the source's `getFilling` latch is never set, so
the WRAM read recurs on every exhausted refill) and `memset`-ing the buffer
with it — or one 32-byte quantum of the fill byte.  Returns the possibly
updated fill byte and machine. -/
def cancelFeedStep (c : Chip) (fillTrack : Bool) (fb : Nat) (m : Mach) :
    Nat × Mach :=
  if fillTrack then
    let s :=
      if m.bufferOffset == BUFFER_SIZE then
        let r := trackReadBufM BUFFER_SIZE m
        if r.1 == 0 then
          let w := mp3ReadWRAM16 c para_endFillByte r.2
          let fbN := w.1 &&& 0xFF
          (fbN, {w.2 with buf := List.replicate BUFFER_SIZE fbN, bufferOffset := 0})
        else (fb, {r.2 with bufferOffset := 0})
      else (fb, m)
    (s.1, {feedData 32 s.2 with bufferOffset := s.2.bufferOffset + 32})
  else (fb, feedData 32 m)

/-- The bounded retry loop of `cancelDecoding` (source 2557-2588): up to the
remaining budget, feed one quantum then read `SCI_MODE`; stop successfully
as soon as the `SM_CANCEL` bit reads back clear. -/
def cancelDecodingLoop (c : Chip) (fillTrack : Bool) :
    Nat → Nat → Mach → Mach × Bool
  | 0, _, m => (m, false)
  | b + 1, fb, m =>
    let s := cancelFeedStep c fillTrack fb m
    let r := sciReadTx c SCI_MODE s.2
    if r.1 &&& SM_CANCEL == 0 then (r.2, true)
    else cancelDecodingLoop c fillTrack b s.1 r.2

/-- `cancelDecoding(fillTrack, fillingByte)` (source 2550-2596): request
cancel by `SCI_MODE |= SM_CANCEL`, run the 64-attempt retry loop, and on
exhaustion soft-reset the chip (`SCI_MODE |= SM_RESET`) and clear the
patch-applied flag. -/
def cancelDecoding (c : Chip) (fillTrack : Bool) (fillingByte : Nat) (m : Mach) :
    Mach :=
  let r := sciReadTx c SCI_MODE m
  let m1 := sciWriteTx c SCI_MODE (r.1 ||| SM_CANCEL) r.2
  let l := cancelDecodingLoop c fillTrack 64 (fillingByte % 256) m1
  if l.2 then l.1
  else
    let r2 := sciReadTx c SCI_MODE l.1
    let m2 := sciWriteTx c SCI_MODE (r2.1 ||| SM_RESET) r2.2
    {m2 with isPatched := false}

/-- One attempt of the `flush_cancel` retry loop (source 2629-2638):
re-request cancel (`SCI_MODE |= SM_CANCEL`), feed one 32-byte frame of the
end-fill byte, re-read `SCI_MODE`; returns that reading and the machine. -/
def flushStep (c : Chip) (m : Mach) : Nat × Mach :=
  let r := sciReadTx c SCI_MODE m
  let m1 := sciWriteTx c SCI_MODE (r.1 ||| SM_CANCEL) r.2
  let m2 := feedData 32 m1
  sciReadTx c SCI_MODE m2

/-- The bounded retry loop of `flush_cancel` (source 2626-2651): up to the
remaining budget, run one attempt; on observing the cancel bit clear it
optionally post-feeds a 2052-byte frame (`pre`/`both`) and stops. -/
def flushCancelLoop (c : Chip) (mode : flush_m) : Nat → Mach → Mach × Bool
  | 0, m => (m, false)
  | n + 1, m =>
    let r2 := flushStep c m
    if r2.1 &&& SM_CANCEL == 0 then
      (if mode == .pre || mode == .both then feedData 2052 r2.2 else r2.2, true)
    else flushCancelLoop c mode n r2.2

/-- `flush_cancel(mode)` (source 2612-2659): read the end-fill byte,
optionally pre-feed a 2052-byte frame (`post`/`both`), run the 64-attempt
retry loop, and on exhaustion soft-reset the chip and clear the
patch-applied flag. -/
def flush_cancel (c : Chip) (mode : flush_m) (m : Mach) : Mach :=
  let w := mp3ReadWRAM16 c para_endFillByte m
  let m1 := if mode == .post || mode == .both then feedData 2052 w.2 else w.2
  let l := flushCancelLoop c mode 64 m1
  if l.2 then l.1
  else
    let r := sciReadTx c SCI_MODE l.1
    let m2 := sciWriteTx c SCI_MODE (r.1 ||| SM_RESET) r.2
    {m2 with isPatched := false}

/-! ## Streaming engine: playback refill (source 2320-2435) -/

/-- The track-end break of the refill loop (source 2337-2351): record
`position = duration`, switch to `cancelling`, read the end-fill byte, flush
(`fillEnd`) then cancel without further track feeding, close storage and
finish in `ready`. -/
def refillTrackEnd (c : Chip) (m : Mach) : Mach :=
  let m1 := {m with position := m.duration, playing_state := .cancelling}
  let w := mp3ReadWRAM16 c para_endFillByte m1
  let m2 := fillEnd w.2
  let m3 := cancelDecoding c false (w.1 &&& 0xFF) m2
  {closeM m3 with playing_state := .ready}

/-- The `cancelling` break of the refill loop (source 2358-2366): cancel
while still feeding genuine track bytes, then read the end-fill byte, flush,
close storage and finish in `ready`. -/
def refillCancelling (c : Chip) (m : Mach) : Mach :=
  let m1 := cancelDecoding c true 0 m
  let w := mp3ReadWRAM16 c para_endFillByte m1
  let m2 := fillEnd w.2
  {closeM m2 with playing_state := .ready}

/-- The rewind step of the `skipping` branch (source 2369-2380): cancel the
current decode, flush, seek storage back to 0, invalidate the buffer, zero
the decode-time register twice and reset `position`.  (`cancelDecoding(true)`
uses the header's default fill byte 0, modelled from the spec.) -/
def refillRewind (c : Chip) (m : Mach) : Mach :=
  let m1 := cancelDecoding c true 0 m
  let w := mp3ReadWRAM16 c para_endFillByte m1
  let m2 := fillEnd w.2
  let m3 := (seekSetM 0 m2).2
  let m4 := {m3 with bufferOffset := BUFFER_SIZE}
  let m5 := sciWriteTx c SCI_DECODE_TIME 0 m4
  let m6 := sciWriteTx c SCI_DECODE_TIME 0 m5
  {m6 with position := 0}

/-- Entering the fast-forward sub-phase (source 2382-2386): mute, raise the
play speed, set `isSkipping`. -/
def refillStartSkip (c : Chip) (m : Mach) : Mach :=
  let m1 := sciWriteTx c SCI_VOL 0xFEFE m
  let m2 := mp3WriteWRAM16 c para_playSpeed SKIPPING_SPEED m1
  {m2 with isSkipping := true}

/-- The feed step of the refill loop (source 2390-2406): one 32-byte frame
from the buffer, and at each completed chunk a raw in-loop read of
`SCI_DECODE_TIME` refreshing `position`. -/
def refillFeed (c : Chip) (m : Mach) : Mach :=
  let m1 := {feedData 32 m with bufferOffset := m.bufferOffset + 32}
  if m1.bufferOffset == BUFFER_SIZE then
    {emit m1 (.sciRead SCI_DECODE_TIME) with
      position := c.decodeTime m1.dtIx % 65536, dtIx := m1.dtIx + 1}
  else m1

/-- The post-loop skip-completion check (source 2410-2416): if the
fast-forward sub-phase is active and `position` has reached the target,
restore normal speed, unmute, clear the sub-phase and return to
`playback`. -/
def skipDoneCheck (c : Chip) (m : Mach) : Mach :=
  if m.isSkipping && decide (m.position ≥ m.skipToPosition) then
    let m1 := mp3WriteWRAM16 c para_playSpeed 0x0001 m
    let m2 := sciWriteTx c SCI_VOL (m.VolL <<< 8 ||| m.VolR) m1
    {m2 with isSkipping := false, playing_state := .playback}
  else m

/-- Outcome of one iteration of the refill loop body: `done` is a `break`
(the loop is left with this machine), `again` continues the loop. -/
inductive RefillStep where
  | done (m : Mach)
  | again (m : Mach)
deriving DecidableEq, Repr

/-- One iteration of the refill loop body (source 2335-2406, everything
between a DREQ check and the next): the buffered-read block with its
track-end break, the `cancelling` break, the `skipping` rewind / fast-
forward entry, and the 32-byte feed step. -/
def refillBody (c : Chip) (m : Mach) : RefillStep :=
  let afterRead : Mach ⊕ Mach :=
    if m.bufferOffset == BUFFER_SIZE then
      let r := trackReadBufM BUFFER_SIZE m
      if r.1 == 0 then Sum.inl (refillTrackEnd c r.2)
      else Sum.inr {r.2 with bufferOffset := 0}
    else Sum.inr m
  match afterRead with
  | Sum.inl mfin => .done mfin
  | Sum.inr m2 =>
    if m2.playing_state == .cancelling then .done (refillCancelling c m2)
    else if m2.playing_state == .skipping && !m2.isSkipping
        && decide (m2.position > m2.skipToPosition) then
      .again (refillRewind c m2)
    else
      let m3 :=
        if m2.playing_state == .skipping && !m2.isSkipping then
          refillStartSkip c m2
        else m2
      .again (refillFeed c m3)

/-- The `while(digitalRead(MP3_DREQ))` loop of `refill` (source 2331-2407).
Each loop-condition check consumes one reading of the DREQ stream; `fuel`
bounds the iterations (`none` = fuel exhausted, a modelling artifact). -/
def refillLoop (c : Chip) : Nat → Mach → Option Mach
  | 0, _ => none
  | fuel + 1, m0 =>
    if !(c.dreq m0.dreqIx) then some {m0 with dreqIx := m0.dreqIx + 1}
    else
      match refillBody c {m0 with dreqIx := m0.dreqIx + 1} with
      | .done mfin => some mfin
      | .again m2 => refillLoop c fuel m2

/-- `refill()` (source 2320-2435): the DREQ-driven loop followed by the
skip-completion check. -/
def refill (c : Chip) (fuel : Nat) (m : Mach) : Option Mach :=
  (refillLoop c fuel m).map (skipDoneCheck c)

/-! ## Public register wrappers (source 2186-2242) -/

/-- `Mp3WriteRegister(addr, msb, lsb)` / its 16-bit overload
(source 2170-2207): no-op in reset; otherwise the transaction, wrapped —
when a playback stream is active — in `disableRefill` before and
`refill(); enableRefill()` after (the notification toggles themselves have
no bus or storage effect).  `fuel` bounds the embedded refill. -/
def Mp3WriteRegisterFull (c : Chip) (fuel addr val : Nat) (m : Mach) :
    Option Mach :=
  if !c.resetHigh then some m
  else
    let m1 := sciWriteTx c addr val m
    if m1.playing_state == .playback then refill c fuel m1
    else some m1

/-- `Mp3ReadRegister(addr)` (source 2219-2242): returns 0 and does nothing
in reset; otherwise the read transaction with the same pause/resume wrapper
as the write. -/
def Mp3ReadRegisterFull (c : Chip) (fuel addr : Nat) (m : Mach) :
    Option (Nat × Mach) :=
  if !c.resetHigh then some (0, m)
  else
    let r := sciReadTx c addr m
    if r.2.playing_state == .playback then
      (refill c fuel r.2).map fun m2 => (r.1, m2)
    else some (r.1, r.2)

/-- `Mp3ReadWRAM(addr)` through the public wrappers (the `SCI_WRAMADDR`
write and the `SCI_WRAM` read each pause/resume an active playback stream);
the `SCI_WRAM` value is the WRAM cell selected by the address write. -/
def Mp3ReadWRAMFull (c : Chip) (fuel addr : Nat) (m : Mach) :
    Option (Nat × Mach) :=
  match Mp3WriteRegisterFull c fuel SCI_WRAMADDR addr m with
  | none => none
  | some m1 =>
    if !c.resetHigh then some (0, m1)
    else
      let m2 := emit m1 (.sciRead SCI_WRAM)
      if m2.playing_state == .playback then
        (refill c fuel m2).map fun m3 => (c.wramVal addr % 65536, m3)
      else some (c.wramVal addr % 65536, m2)

/-! ## Session state machine (source 1100-1630) -/

/-- `isBusy()` (source 1448-1474): 0xFF when the chip's reset line reads
low, otherwise the busy code derived from the state. -/
def isBusy (c : Chip) (s : state_m) : Nat :=
  if !c.resetHigh then 0xFF
  else
    match s with
    | .playback => 0x01
    | .paused_playback => 0x01
    | .recording => 0x02
    | .cancelling => 0x03
    | .skipping => 0x03
    | .finishing => 0x04
    | _ => 0x00

/-- `getTrackFormat(filename)` (source 2774-2785): the lower-cased final
four characters decide the format.  (`strstr` with a 4-byte needle inside
the 4-byte window is equality; names shorter than 4 characters make the
source's pointer arithmetic wrap, and are not modelled.) -/
def getTrackFormat (filename : String) : format_m :=
  let last4 := String.mk ((filename.toLower).data.drop (filename.length - 4))
  if last4 == (".mp3") then .mp3
  else if last4 == (".aac") then .aac
  else if last4 == (".wma") then .wma
  else if last4 == (".wav") then .wav
  else if last4 == (".fla") then .fla
  else if last4 == (".mid") then .mid
  else if last4 == (".ogg") then .ogg
  else .unknownFormat

/-- The record-parsing loop of `VSLoadUserCode` (source 337-354), RLE run:
write the same word `n` times to the same register. -/
def loadCodeWriteRun (c : Chip) (aw vw : Nat) : Nat → Mach → Mach
  | 0, m => m
  | k + 1, m => loadCodeWriteRun c aw vw k (sciWriteTx c aw vw m)

/-- The record-parsing loop of `VSLoadUserCode` (source 347-353), copy run:
read and write `n` distinct words; a short read breaks the inner loop only.
Register writes happen at `playing_state ∈ {ready, loading, ...}`, never
`playback`, so the bare transaction is the wrapper's behavior. -/
def loadCodeCopyRun (c : Chip) (aw : Nat) : Nat → Mach → Mach
  | 0, m => m
  | k + 1, m =>
    match trackRead2 m with
    | (none, m1) => m1
    | (some vw, m1) => loadCodeCopyRun c aw k (sciWriteTx c aw vw m1)

/-- The outer `while(1)` of `VSLoadUserCode` (source 337-354): read a 2-byte
address and a 2-byte count; the count's high bit selects an RLE run.  Each
iteration consumes at least two file bytes, so `fuel = length + 2` never
runs out before the short-read break. -/
def loadCodeLoop (c : Chip) : Nat → Mach → Mach
  | 0, m => m
  | fuel + 1, m =>
    match trackRead2 m with
    | (none, m1) => m1
    | (some aw, m1) =>
      match trackRead2 m1 with
      | (none, m2) => m2
      | (some nw, m2) =>
        if nw &&& 0x8000 != 0 then
          match trackRead2 m2 with
          | (none, m3) => m3
          | (some vw, m3) =>
            loadCodeLoop c fuel (loadCodeWriteRun c aw vw (nw &&& 0x7FFF) m3)
        else loadCodeLoop c fuel (loadCodeCopyRun c aw nw m2)

/-- `VSLoadUserCode(fileName)` (source 326-357): 3 in reset, 1 busy, 2 when
the patch file cannot be opened; otherwise parse-and-upload then close,
returning 0.  The patch file's bytes are the collaborator parameter (`none`
= open fails).  The second in-reset check (line 334) is redundant under the
static reset-line model. -/
def VSLoadUserCode (c : Chip) (fileData : Option (List Nat)) (m : Mach) :
    Nat × Mach :=
  if !c.resetHigh then (3, m)
  else if isBusy c m.playing_state != 0 then (1, m)
  else
    match fileData with
    | none => (2, emit m (.stOpen false))
    | some d =>
      let o := trackOpenM true d false m
      (0, closeM (loadCodeLoop c (d.length + 2) o.2))

/-- `play(fileName, timecode)` (source 1100-1137).  Collaborator
parameters: the patch file image for the default-patch load (its return
value is ignored by `play`), and the track file image (`none` = open
fails).  After the guards: ensure a patch, open the track, infer the
format, reset the session fields, run the matching scanner (with the
optional timecode seek for MP3: `timecode * bitrate + start_of_music`,
`uint32_t` arithmetic), clear the decode-time register twice, enter
`playback`, run one refill and enable the notification. -/
def play (c : Chip) (fuel : Nat) (fileName : String)
    (fileData patchData : Option (List Nat)) (timecode : Nat) (m : Mach) :
    Option (Nat × Mach) :=
  if isBusy c m.playing_state != 0 then some (1, m)
  else
    let m1 :=
      if !m.isPatched then {(VSLoadUserCode c patchData m).2 with isPatched := true}
      else m
    let o := trackOpenM fileData.isSome (fileData.getD []) false m1
    if !o.1 then some (2, o.2)
    else
      let m2 := {o.2 with trackFormat := getTrackFormat fileName,
                          bufferOffset := BUFFER_SIZE, isSkipping := false,
                          start_of_music := 0, duration := 0}
      let m3? : Option Mach :=
        if m2.trackFormat == .ogg then getOggInfo m2
        else if m2.trackFormat == .mp3 then
          (getBitRateFromMP3File m2).map fun ma =>
            if timecode > 0 then
              (seekSetM (timecode % 4294967296 * ma.bitrate + ma.start_of_music) ma).2
            else ma
        else some m2
      match m3? with
      | none => none
      | some m3 =>
        match Mp3WriteRegisterFull c fuel SCI_DECODE_TIME 0 m3 with
        | none => none
        | some m4 =>
          match Mp3WriteRegisterFull c fuel SCI_DECODE_TIME 0 m4 with
          | none => none
          | some m5 =>
            (refill c fuel {m5 with playing_state := .playback}).map
              fun m6 => (0, m6)

/-- `recordOgg(fileName, profileName, isStereo)` (source 1181-1238).
Collaborator parameters: the profile file image (`none` = open fails inside
`VSLoadUserCode`) and the destination-open outcome.  Register accesses run
at `playing_state = loading`, so the wrappers are bare transactions.  The
default build has `VS_LINE1_MODE` undefined (microphone input) and loads
the profile with `VSLoadUserCode`. -/
def recordOgg (c : Chip) (profileData : Option (List Nat)) (destOpenOk : Bool)
    (isStereo : Bool) (m : Mach) : Nat × Mach :=
  if isBusy c m.playing_state != 0 then (1, m)
  else
    let m1 := {m with playing_state := .loading}
    let b0 := sciReadTx c SCI_CLOCKF m1
    let b1 := sciReadTx c SCI_BASS b0.2
    let b2 := sciReadTx c SCI_MODE b1.2
    let m2 := {b2.2 with registers_backup := [b0.1, b1.1, b2.1]}
    let m3 := sciWriteTx c SCI_CLOCKF 0xC000 m2
    let m4 := sciWriteTx c SCI_BASS 0 m3
    let m5 := sciWriteTx c SCI_MODE ((b2.1 ||| SM_RESET) &&& (65535 ^^^ SM_ADPCM)) m4
    let m6 := {m5 with isPatched := false}
    let m7 := sciWriteTx c SCI_AIADDR 0 m6
    let m8 := mp3WriteWRAM16 c para_interrupt 0x02 m7
    let l := VSLoadUserCode c profileData m8
    if l.1 != 0 then (2, {l.2 with playing_state := .ready})
    else
      let sm := sciReadTx c SCI_MODE l.2
      let modeVal :=
        if isStereo then sm.1 ||| SM_ADPCM ||| SM_LAYER12 else sm.1 ||| SM_ADPCM
      let m9 := {sm.2 with isRecordingStereo := isStereo}
      let m10 := sciWriteTx c SCI_MODE (modeVal &&& (65535 ^^^ SM_LINE1)) m9
      let m11 := sciWriteTx c SCI_AICTRL1 1024 m10
      let m12 := sciWriteTx c SCI_AICTRL2 0 m11
      let m13 := sciWriteTx c SCI_AICTRL3 0 m12
      let o := trackOpenM destOpenOk [] true m13
      if !o.1 then (2, o.2)
      else
        let m14 := sciWriteTx c SCI_AIADDR 0x34 o.2
        (0, {m14 with playing_state := .recording})

/-- `pauseMusic()` (source 1497-1502): only from `playback` with the chip
out of reset; disables the notification (no bus or storage effect) and
enters `paused_playback`. -/
def pauseMusic (c : Chip) (m : Mach) : Mach :=
  if m.playing_state != .playback || !c.resetHigh then m
  else {m with playing_state := .paused_playback}

/-- `resumeMusic(timecode)` (source 1520-1530): 1 unless paused with the
chip out of reset; the sentinel `0xFFFFFFFF` keeps the current file
position, any other timecode seeks to
`timecode * Mp3ReadWRAM(para_byteRate) / 1000 + start_of_music` (`uint32_t`
product) and fails with 2 when the seek fails; then back to `playback`
returning 0.  The register access runs at `paused_playback`, so the wrapper
is the bare transaction. -/
def resumeMusic (c : Chip) (timecode : Nat) (m : Mach) : Nat × Mach :=
  if m.playing_state != .paused_playback || !c.resetHigh then (1, m)
  else if timecode != 4294967295 then
    let w := mp3ReadWRAM16 c para_byteRate m
    let s := seekSetM (timecode * w.1 % 4294967296 / 1000 + m.start_of_music) w.2
    if !s.1 then (2, s.2)
    else (0, {s.2 with playing_state := .playback})
  else (0, {m with playing_state := .playback})

/-- `skipTo(seconds)` (source 1582-1630): 1 unless the busy code is 1.  For
OGG, record the clamped target and defer to the refill cycle (`cancelling`
when the target is the duration, else `skipping`; `skipToPosition` is a
`uint16_t`).  For frame-coded audio, pause, seek to
`seconds * Mp3ReadWRAM(para_byteRate) + start_of_music` (`uint32_t`
arithmetic; 2 on seek failure), mute, `flush_cancel(pre)`, force the
decode-time register twice, refill once, restore the volume via
`setVolume(VolL, VolR)` and resume `playback`. -/
def skipTo (c : Chip) (fuel seconds : Nat) (m : Mach) : Option (Nat × Mach) :=
  if isBusy c m.playing_state != 1 then some (1, m)
  else if m.trackFormat == .ogg then
    if seconds ≥ m.duration then
      some (0, {m with skipToPosition := m.duration % 65536,
                       playing_state := .cancelling})
    else
      some (0, {m with skipToPosition := seconds % 65536,
                       playing_state := .skipping})
  else
    let m1 := {m with playing_state := .paused_playback}
    let w := mp3ReadWRAM16 c para_byteRate m1
    let s := seekSetM (seconds * w.1 + m.start_of_music) w.2
    if !s.1 then some (2, s.2)
    else
      let m2 := sciWriteTx c SCI_VOL 0xFEFE s.2
      let m3 := flush_cancel c .pre m2
      let m4 := sciWriteTx c SCI_DECODE_TIME (seconds % 65536) m3
      let m5 := sciWriteTx c SCI_DECODE_TIME (seconds % 65536) m4
      match refill c fuel m5 with
      | none => none
      | some m6 =>
        let m7 := sciWriteTx c SCI_VOL (m6.VolL <<< 8 ||| m6.VolR) m6
        some (0, {m7 with playing_state := .playback})

/-- `skip(seconds)` (source 1548-1564): 1 unless the busy code is 1 and the
delta is non-zero.  For OGG the target is clamped into `[0, duration]` in
session units; for frame-coded audio the target is
`(curPosition - start_of_music) / Mp3ReadWRAM(para_byteRate) + seconds`
(`uint32_t` arithmetic; the byte-rate read pauses/resumes the active
stream, hence the fuel; a zero byte rate would divide by zero: `none`).
Then `skipTo` performs the move. -/
def skip (c : Chip) (fuel : Nat) (seconds : Int) (m : Mach) :
    Option (Nat × Mach) :=
  if isBusy c m.playing_state != 1 || seconds == 0 then some (1, m)
  else if m.trackFormat == .ogg then
    let posPlus := (((m.position : Int) + seconds) % 4294967296).toNat
    let target :=
      if seconds < 0 && decide (m.position < (-seconds).toNat) then 0
      else if decide (posPlus > m.duration) then m.duration
      else posPlus
    skipTo c fuel target m
  else
    match Mp3ReadWRAMFull c fuel para_byteRate m with
    | none => none
    | some (br, m1) =>
      if br == 0 then none
      else
        let diff := (m1.track.pos + 4294967296 - m.start_of_music) % 4294967296
        let target := (((diff / br : Int) + seconds) % 4294967296).toNat
        skipTo c fuel target m1

/-! ## Trace observations -/

/-- The storage seek offsets in a trace, in order. -/
def seeks (tr : List Ev) : List Nat :=
  tr.filterMap fun e =>
    match e with
    | .stSeek off => some off
    | _ => none

/-- Whether an event is one 32-byte feed frame (the cancel handshake's feed
quantum). -/
def isFeed32 (e : Ev) : Bool :=
  match e with
  | .feed n => n == 32
  | _ => false

/-- Number of 32-byte feed frames in a trace. -/
def feed32Count (tr : List Ev) : Nat :=
  (tr.filter isFeed32).length

/-- Whether an event writes `SCI_MODE` with the `SM_RESET` bit set (a soft
reset of the chip). -/
def isModeReset (e : Ev) : Bool :=
  match e with
  | .sciWrite a v => a == SCI_MODE && v &&& SM_RESET != 0
  | _ => false

/-- Whether a trace contains a soft-reset write. -/
def resetWritten (tr : List Ev) : Bool :=
  tr.any isModeReset

/-! ## Concrete fixtures for witnesses and counterexamples -/

/-- A quiescent chip: out of reset, never asking for data, cancel bit always
set (`SCI_MODE` always reads `SM_CANCEL`), all other reads 0 except a
byte-rate of 16 bytes/ms = 128000/8/1000 (a 128 kbps stream, spec §8). -/
def chip128 : Chip :=
  ⟨true, fun _ => false, fun _ => SM_CANCEL, fun _ => 0,
   fun a => if a == para_byteRate then 128000 / 8 / 1000 else 0, fun _ => 0⟩

/-- A chip whose reset line reads low. -/
def chipInReset : Chip :=
  ⟨false, fun _ => false, fun _ => 0, fun _ => 0, fun _ => 0, fun _ => 0⟩

/-- A chip that is always ready for data (DREQ high) and whose cancel bit
clears on the third `SCI_MODE` read. -/
def chipEager : Chip :=
  ⟨true, fun _ => true, fun i => if decide (i < 2) then SM_CANCEL else 0,
   fun _ => 0, fun _ => 0, fun _ => 0⟩

/-- A base machine state: idle session, empty 256-byte buffer, no track. -/
def machBase : Mach where
  playing_state := .ready
  isPatched := true
  isSkipping := false
  isRecordingStereo := false
  trackFormat := .unknownFormat
  bitrate := 0
  duration := 0
  position := 0
  skipToPosition := 0
  start_of_music := 0
  VolL := 0x30
  VolR := 0x30
  bufferOffset := BUFFER_SIZE
  buf := List.replicate BUFFER_SIZE 0
  registers_backup := [0, 0, 0]
  track := ⟨false, 0, []⟩
  dreqIx := 0
  modeIx := 0
  dtIx := 0
  trace := []

/-- A 512-byte OGG image whose comment header reports 1 channel at sample
rate 1 and whose final page reports absolute sample position
65541 = 2^16 + 5: the `uint16_t` duration field truncates 65541 to 5. -/
def oggTruncFile : List Nat :=
  [0x01, 0x76, 0x6F, 0x72, 0x62, 0x69, 0x73, 0, 0, 0, 0, 1, 1, 0, 0, 0]
    ++ List.replicate 240 0
    ++ [0x4F, 0x67, 0x67, 0x53, 0x00, 0x04, 5, 0, 1, 0, 0, 0, 0, 0]
    ++ List.replicate 242 0

/-- A 512-byte OGG image realizing the spec §8 scenario: 2 channels,
sample rate 44100 (little-endian 0xAC44), absolute sample position
441000 (little-endian 0x06BAC8). -/
def oggSpecFile : List Nat :=
  [0x01, 0x76, 0x6F, 0x72, 0x62, 0x69, 0x73, 0, 0, 0, 0, 2, 0x44, 0xAC, 0, 0]
    ++ List.replicate 240 0
    ++ [0x4F, 0x67, 0x67, 0x53, 0x00, 0x04, 0xA8, 0xBA, 0x06, 0, 0, 0, 0, 0]
    ++ List.replicate 242 0

/-- A session holding the truncating OGG image, about to be scanned. -/
def mOggTrunc : Mach :=
  {machBase with track := ⟨true, 0, oggTruncFile⟩}

/-- A session holding the spec §8 OGG image. -/
def mOggSpec : Mach :=
  {machBase with track := ⟨true, 0, oggSpecFile⟩}

/-- A session with a non-zero prior bitrate and an empty (sync-free) open
file. -/
def mBitratePrev : Mach :=
  {machBase with bitrate := 7, track := ⟨true, 0, []⟩}

/-- A session whose open file starts with a frame sync carrying bitrate
code 0b1111 (0xFF sync, version-1 layer-3 header byte 0xEA, code nibble
0xF). -/
def mCode15 : Mach :=
  {machBase with track := ⟨true, 0, [0xFF, 0xEA, 0xF0]⟩}

/-- A playback session on a 128 kbps MP3: position at `start_of_music`,
512-byte file. -/
def mMp3Play : Mach :=
  {machBase with playing_state := .playback, trackFormat := .mp3,
                 track := ⟨true, 50, List.replicate 512 0⟩, start_of_music := 50}

/-- A playback session on an OGG stream of duration 5, mid-file. -/
def mOggPlay : Mach :=
  {machBase with playing_state := .playback, trackFormat := .ogg, duration := 5,
                 track := ⟨true, 100, List.replicate 512 0⟩, bufferOffset := 64}

/-- A playback session at end-of-file with an exhausted buffer. -/
def mOggEof : Mach :=
  {machBase with playing_state := .playback, trackFormat := .ogg, duration := 5,
                 track := ⟨true, 512, List.replicate 512 0⟩,
                 bufferOffset := BUFFER_SIZE}

/-- A chip that asserts DREQ only at the very first poll. -/
def chipOnce : Chip :=
  {chip128 with dreq := fun i => i == 0}

end vs1053

namespace vs1053

/-! # Helper lemmas -/

lemma and_or_right (x y z : Nat) : (x ||| y) &&& z = x &&& z ||| y &&& z := by
  apply Nat.eq_of_testBit_eq
  intro i
  simp only [Nat.testBit_or, Nat.testBit_and]
  cases x.testBit i <;> cases y.testBit i <;> cases z.testBit i <;> rfl

lemma or_lt_65536 {x y : Nat} (hx : x < 65536) (hy : y < 65536) :
    x ||| y < 65536 := by
  have h : (65536 : Nat) = 2 ^ 16 := by norm_num
  rw [h] at hx hy ⊢
  exact Nat.or_lt_two_pow hx hy

@[simp] lemma feed32Count_nil : feed32Count [] = 0 := rfl

@[simp] lemma feed32Count_append (t1 t2 : List Ev) :
    feed32Count (t1 ++ t2) = feed32Count t1 + feed32Count t2 := by
  simp [feed32Count, List.filter_append]

@[simp] lemma resetWritten_nil : resetWritten [] = false := rfl

@[simp] lemma resetWritten_append (t1 t2 : List Ev) :
    resetWritten (t1 ++ t2) = (resetWritten t1 || resetWritten t2) := by
  simp [resetWritten]

@[simp] lemma seeks_nil : seeks [] = [] := rfl

@[simp] lemma seeks_append (t1 t2 : List Ev) :
    seeks (t1 ++ t2) = seeks t1 ++ seeks t2 := by
  simp [seeks]

@[simp] lemma emit_trace (m : Mach) (e : Ev) : (emit m e).trace = m.trace ++ [e] := rfl

@[simp] lemma emit_modeIx (m : Mach) (e : Ev) : (emit m e).modeIx = m.modeIx := rfl

@[simp] lemma emit_dreqIx (m : Mach) (e : Ev) : (emit m e).dreqIx = m.dreqIx := rfl

@[simp] lemma emit_isPatched (m : Mach) (e : Ev) : (emit m e).isPatched = m.isPatched := rfl

@[simp] lemma emit_isSkipping (m : Mach) (e : Ev) : (emit m e).isSkipping = m.isSkipping := rfl

@[simp] lemma emit_playing_state (m : Mach) (e : Ev) :
    (emit m e).playing_state = m.playing_state := rfl

@[simp] lemma emit_track (m : Mach) (e : Ev) : (emit m e).track = m.track := rfl

@[simp] lemma emit_bufferOffset (m : Mach) (e : Ev) :
    (emit m e).bufferOffset = m.bufferOffset := rfl

@[simp] lemma emit_trackFormat (m : Mach) (e : Ev) :
    (emit m e).trackFormat = m.trackFormat := rfl

@[simp] lemma emit_bitrate (m : Mach) (e : Ev) : (emit m e).bitrate = m.bitrate := rfl

@[simp] lemma emit_duration (m : Mach) (e : Ev) : (emit m e).duration = m.duration := rfl

@[simp] lemma emit_position (m : Mach) (e : Ev) : (emit m e).position = m.position := rfl

@[simp] lemma emit_skipToPosition (m : Mach) (e : Ev) :
    (emit m e).skipToPosition = m.skipToPosition := rfl

@[simp] lemma emit_start_of_music (m : Mach) (e : Ev) :
    (emit m e).start_of_music = m.start_of_music := rfl

@[simp] lemma emit_VolL (m : Mach) (e : Ev) : (emit m e).VolL = m.VolL := rfl

@[simp] lemma emit_VolR (m : Mach) (e : Ev) : (emit m e).VolR = m.VolR := rfl

@[simp] lemma emit_buf (m : Mach) (e : Ev) : (emit m e).buf = m.buf := rfl

@[simp] lemma emit_registers_backup (m : Mach) (e : Ev) :
    (emit m e).registers_backup = m.registers_backup := rfl

@[simp] lemma emit_isRecordingStereo (m : Mach) (e : Ev) :
    (emit m e).isRecordingStereo = m.isRecordingStereo := rfl

@[simp] lemma emit_dtIx (m : Mach) (e : Ev) : (emit m e).dtIx = m.dtIx := rfl

@[simp] lemma feed32Count_sciRead (a : Nat) : feed32Count [.sciRead a] = 0 := rfl

@[simp] lemma feed32Count_sciWrite (a v : Nat) : feed32Count [.sciWrite a v] = 0 := rfl

@[simp] lemma feed32Count_stRead (n : Nat) : feed32Count [.stRead n] = 0 := rfl

@[simp] lemma feed32Count_stSeek (o : Nat) : feed32Count [.stSeek o] = 0 := rfl

@[simp] lemma feed32Count_stOpen (w : Bool) : feed32Count [.stOpen w] = 0 := rfl

@[simp] lemma feed32Count_stClose : feed32Count [.stClose] = 0 := rfl

@[simp] lemma feed32Count_feed (n : Nat) :
    feed32Count [.feed n] = if n == 32 then 1 else 0 := by
  cases h : (n == 32) <;> simp [feed32Count, List.filter, isFeed32, h]

@[simp] lemma resetWritten_sciRead (a : Nat) : resetWritten [.sciRead a] = false := rfl

@[simp] lemma resetWritten_feed (n : Nat) : resetWritten [.feed n] = false := rfl

@[simp] lemma resetWritten_stRead (n : Nat) : resetWritten [.stRead n] = false := rfl

@[simp] lemma resetWritten_stSeek (o : Nat) : resetWritten [.stSeek o] = false := rfl

@[simp] lemma resetWritten_stOpen (w : Bool) : resetWritten [.stOpen w] = false := rfl

@[simp] lemma resetWritten_stClose : resetWritten [.stClose] = false := rfl

@[simp] lemma resetWritten_sciWrite (a v : Nat) :
    resetWritten [.sciWrite a v] = (a == SCI_MODE && v &&& SM_RESET != 0) := by
  simp [resetWritten, isModeReset]

@[simp] lemma seeks_sciRead (a : Nat) : seeks [.sciRead a] = [] := rfl

@[simp] lemma seeks_sciWrite (a v : Nat) : seeks [.sciWrite a v] = [] := rfl

@[simp] lemma seeks_feed (n : Nat) : seeks [.feed n] = [] := rfl

@[simp] lemma seeks_stRead (n : Nat) : seeks [.stRead n] = [] := rfl

@[simp] lemma seeks_stOpen (w : Bool) : seeks [.stOpen w] = [] := rfl

@[simp] lemma seeks_stClose : seeks [.stClose] = [] := rfl

@[simp] lemma seeks_stSeek (o : Nat) : seeks [.stSeek o] = [o] := rfl

@[simp] lemma feed32Count_cons (e : Ev) (t : List Ev) :
    feed32Count (e :: t) = (if isFeed32 e then 1 else 0) + feed32Count t := by
  cases h : isFeed32 e <;> simp [feed32Count, List.filter, h, Nat.add_comm]

@[simp] lemma resetWritten_cons (e : Ev) (t : List Ev) :
    resetWritten (e :: t) = (isModeReset e || resetWritten t) := by
  simp [resetWritten]

@[simp] lemma seeks_cons_stSeek (o : Nat) (t : List Ev) :
    seeks (.stSeek o :: t) = o :: seeks t := by
  simp [seeks, List.filterMap]

@[simp] lemma seeks_cons_sciWrite (a v : Nat) (t : List Ev) :
    seeks (.sciWrite a v :: t) = seeks t := rfl

@[simp] lemma seeks_cons_sciRead (a : Nat) (t : List Ev) :
    seeks (.sciRead a :: t) = seeks t := rfl

@[simp] lemma seeks_cons_feed (n : Nat) (t : List Ev) :
    seeks (.feed n :: t) = seeks t := rfl

@[simp] lemma seeks_cons_stRead (n : Nat) (t : List Ev) :
    seeks (.stRead n :: t) = seeks t := rfl

@[simp] lemma seeks_cons_stOpen (w : Bool) (t : List Ev) :
    seeks (.stOpen w :: t) = seeks t := rfl

@[simp] lemma seeks_cons_stClose (t : List Ev) :
    seeks (.stClose :: t) = seeks t := rfl

/-! # Claim C1 -/

/-- C1: for every state in {playback, paused_playback, recording,
cancelling, skipping, finishing}, `play(fileName, timecode)` returns the
busy result code 1 and performs no storage or bus operation, leaving the
whole session (all fields, including the event trace and the open track)
unchanged. -/
theorem play_busy_noop (c : Chip) (fuel : Nat) (fileName : String)
    (fileData patchData : Option (List Nat)) (timecode : Nat) (m : Mach)
    (h : m.playing_state = .playback ∨ m.playing_state = .paused_playback ∨
         m.playing_state = .recording ∨ m.playing_state = .cancelling ∨
         m.playing_state = .skipping ∨ m.playing_state = .finishing) :
    play c fuel fileName fileData patchData timecode m = some (1, m) := by
  unfold play
  rcases h with h | h | h | h | h | h <;>
    cases hc : c.resetHigh <;> simp [isBusy, h, hc]

/-- Witness for C1 at a concrete busy session. -/
theorem play_busy_noop_witness :
    play chip128 1 (".mp3") none none 0
        {machBase with playing_state := .playback}
      = some (1, {machBase with playing_state := .playback}) :=
  play_busy_noop _ _ _ _ _ _ _ (Or.inl rfl)

/-! # Claim C7 -/

/-- C7: from `playback` with the chip out of reset, `pauseMusic()` followed
by `resumeMusic(0xFFFFFFFF)` (the keep-current-position sentinel) returns 0
and restores the machine exactly: storage position, `bitrate`, and the
event trace (in particular no storage seek) are unchanged, and the state is
back to `playback`. -/
theorem pause_resume_keep_position (c : Chip) (m : Mach)
    (h1 : m.playing_state = .playback) (h2 : c.resetHigh = true) :
    resumeMusic c 4294967295 (pauseMusic c m) = (0, m) := by
  cases m
  simp only at h1
  subst h1
  simp [pauseMusic, resumeMusic, h2]

/-- Witness for C7 at a concrete playback session. -/
theorem pause_resume_keep_position_witness :
    resumeMusic chip128 4294967295 (pauseMusic chip128 mMp3Play)
      = (0, mMp3Play) :=
  pause_resume_keep_position _ _ rfl rfl

/-! # Claim C9 -/

/-- C9: with the chip's reset line reading low, `Mp3WriteRegister` is a
complete no-op (no bus transaction, no state change) for every address and
value, and `Mp3ReadRegister` returns 0 without a bus transaction; neither
signals an error. -/
theorem regAccess_in_reset (c : Chip) (fuel addr val : Nat) (m : Mach)
    (h : c.resetHigh = false) :
    Mp3WriteRegisterFull c fuel addr val m = some m ∧
    Mp3ReadRegisterFull c fuel addr m = some (0, m) := by
  constructor <;> simp [Mp3WriteRegisterFull, Mp3ReadRegisterFull, h]

/-- Witness for C9 at a concrete address/value. -/
theorem regAccess_in_reset_witness :
    Mp3WriteRegisterFull chipInReset 1 11 0xFEFE mMp3Play = some mMp3Play ∧
    Mp3ReadRegisterFull chipInReset 1 11 mMp3Play = some (0, mMp3Play) :=
  regAccess_in_reset _ _ _ _ _ rfl

/-! # Claim C10 -/

/-- C10: the bitrate-code nibble ranges over 0..15 but `bitrate_table` has
only 15 rows, so code 0b1111 indexes past the end of the table: the guarded
lookup returns `none` for code 15 at every column, and on a stream whose
first matched frame header carries code 0b1111 the whole frame-header scan
returns the out-of-bounds marker `none` instead of a tabled value. -/
theorem bitrate_code15_out_of_bounds :
    (∀ row : Nat, bitrateLookup 15 row = none) ∧
    mp3ScanLoop [0xFF, 0xEA, 0xF0] 65535 0 = none ∧
    getBitRateFromMP3File mCode15 = none := by
  refine ⟨fun row => rfl, by decide, by decide⟩

/-! # Claim C5 -/

/-- On an empty file every read fails, so the bounded sync scan burns its
whole budget without a match and reports no hit. -/
lemma mp3ScanLoop_nil (b p : Nat) : mp3ScanLoop [] b p = some (none, p) := by
  induction b generalizing p with
  | zero => rfl
  | succ b ih => simpa [mp3ScanLoop, trackRead1] using ih p

/-- C5 counterexample: on a sync-free stream (here: empty) the scan leaves
`bitrate = 0`, not the value held before the call (7 here) — the source
clears `bitrate` at entry (line 1853). -/
theorem bitrate_not_preserved_cex :
    mp3ScanLoop ([] : List Nat) 65535 0 = some (none, 0) ∧
    mBitratePrev.bitrate = 7 ∧
    (getBitRateFromMP3File mBitratePrev).map Mach.bitrate = some 0 ∧
    (0 : Nat) ≠ 7 := by
  refine ⟨mp3ScanLoop_nil _ _, rfl, ?_, by decide⟩
  show (getBitRateFromMP3File mBitratePrev).map Mach.bitrate = some 0
  unfold getBitRateFromMP3File
  rw [show mBitratePrev.track.data = ([] : List Nat) from rfl,
      show mBitratePrev.track.pos = 0 from rfl, mp3ScanLoop_nil]
  rfl

/-- C5 as amended: when no valid frame sync is found within the bounded
scan, `getBitRateFromMP3File` terminates normally (no error is reported)
with the session's `bitrate` field equal to 0 — the value the scan itself
stores at entry — and `start_of_music` untouched. -/
theorem bitrate_nomatch_zero (m : Mach) (pfin : Nat)
    (h : mp3ScanLoop m.track.data 65535 m.track.pos = some (none, pfin)) :
    getBitRateFromMP3File m
      = some {m with bitrate := 0, track := {m.track with pos := pfin}} := by
  unfold getBitRateFromMP3File
  rw [h]

/-- Witness for the amended C5 on the empty stream. -/
theorem bitrate_nomatch_zero_witness :
    getBitRateFromMP3File mBitratePrev
      = some {mBitratePrev with bitrate := 0,
                                track := {mBitratePrev.track with pos := 0}} :=
  bitrate_nomatch_zero _ _ (mp3ScanLoop_nil 65535 0)

/-! # Claim C3 -/

set_option maxRecDepth 100000

/-- C3 as amended: when the comment-header scan yields channel count `c` and
sample rate `r` (both non-zero) and the end-page scan yields absolute sample
position `s`, `getOggInfo` stores `duration = (s / c / r) % 2^16` — integer
division truncated to the 16-bit `duration` field — and repositions storage
to offset 0 before returning. -/
theorem getOggInfo_duration_spec (m : Mach) (ch rt s : Nat) (b1 b2 : List Nat)
    (p1 p2 : Nat)
    (h1 : commentScanLoop m.track.data (m.track.data.length + 2) m.buf 0
        = some (ch, rt, b1, p1))
    (h2 : pageScanLoop m.track.data (m.track.data.length / BUFFER_SIZE + 2) b1
        (if BUFFER_SIZE ≤ m.track.data.length then
          m.track.data.length - BUFFER_SIZE
         else m.track.data.length) = some (s, b2, p2))
    (hc : ch ≠ 0) (hr : rt ≠ 0) :
    getOggInfo m = some {m with duration := s / ch / rt % 65536, buf := b2,
                                track := {m.track with pos := 0}} := by
  unfold getOggInfo
  dsimp only
  rw [h1]
  dsimp only
  rw [h2]
  simp [hc, hr]

/-- Witness for the amended C3 on the spec §8 image: 2 channels, 44100 Hz,
sample position 441000, duration 441000/2/44100 = 5, storage back at 0. -/
theorem getOggInfo_duration_spec_witness :
    getOggInfo mOggSpec
      = some {mOggSpec with duration := 441000 / 2 / 44100 % 65536,
                            buf := oggSpecFile.drop 256,
                            track := {mOggSpec.track with pos := 0}} ∧
    441000 / 2 / 44100 % 65536 = 5 :=
  ⟨getOggInfo_duration_spec mOggSpec 2 44100 441000 (oggSpecFile.take 256)
      (oggSpecFile.drop 256) 256 512 (by decide) (by decide) (by decide)
      (by decide),
   by decide⟩

/-- C3 counterexample: an OGG image whose scans yield channel count 1,
sample rate 1 and absolute sample position 65541 stores
`duration = 65541 % 2^16 = 5`, not `65541 = s / c / r`: the claim's
`duration = s / c / r` fails because the `uint16_t` field truncates. -/
theorem getOggInfo_duration_truncates_cex :
    commentScanLoop oggTruncFile (oggTruncFile.length + 2)
        (List.replicate 256 0) 0
      = some (1, 1, oggTruncFile.take 256, 256) ∧
    pageScanLoop oggTruncFile (oggTruncFile.length / BUFFER_SIZE + 2)
        (oggTruncFile.take 256) 256
      = some (65541, oggTruncFile.drop 256, 512) ∧
    (getOggInfo mOggTrunc).map Mach.duration = some 5 ∧
    (getOggInfo mOggTrunc).map (fun x => x.track.pos) = some 0 ∧
    65541 / 1 / 1 ≠ 5 := by
  refine ⟨by decide, by decide, by decide, by decide, by decide⟩

/-! # Claim C8 -/

/-- C8 counterexample: `recordOgg`'s recording-profile load failure and its
destination-file open failure return the same result code 2 (source lines
1207 and 1229), so the three failure causes are not pairwise distinct. -/
theorem recordOgg_codes_collide_cex :
    (recordOgg chip128 none true false machBase).1 = 2 ∧
    (recordOgg chip128 (some []) false false machBase).1 = 2 := by
  exact ⟨by decide, by decide⟩

/-- C8 as amended: `recordOgg` distinguishes the busy cause (code 1, with
the session untouched) from the two resource-failure causes, but the
profile-load failure and the destination-open failure share code 2; a
successful start returns 0. -/
theorem recordOgg_codes (c : Chip) (pd : Option (List Nat)) (dok st : Bool)
    (m : Mach) (hbusy : isBusy c m.playing_state ≠ 0) :
    recordOgg c pd dok st m = (1, m) ∧
    (recordOgg chip128 none true false machBase).1 = 2 ∧
    (recordOgg chip128 (some []) false false machBase).1 = 2 ∧
    (recordOgg chip128 (some []) true false machBase).1 = 0 ∧
    (1 : Nat) ≠ 2 := by
  refine ⟨?_, by decide, by decide, by decide, by decide⟩
  unfold recordOgg
  simp [hbusy]

/-- Witness for the amended C8 at a concrete busy session. -/
theorem recordOgg_codes_witness :
    recordOgg chip128 none true false
        {machBase with playing_state := .recording}
      = (1, {machBase with playing_state := .recording}) :=
  (recordOgg_codes chip128 none true false _ (by decide)).1

/-! # Claim C2 -/

/-- Each feed step of the cancel retry loop adds exactly one 32-byte feed
frame, no `SCI_MODE` write, and leaves the mode-read cursor, the patch flag
and the skip flag alone. -/
lemma cancelFeedStep_proj (c : Chip) (ft : Bool) (fb : Nat) (m : Mach) :
    (cancelFeedStep c ft fb m).2.modeIx = m.modeIx ∧
    (cancelFeedStep c ft fb m).2.isPatched = m.isPatched ∧
    (cancelFeedStep c ft fb m).2.isSkipping = m.isSkipping ∧
    feed32Count (cancelFeedStep c ft fb m).2.trace = feed32Count m.trace + 1 ∧
    resetWritten (cancelFeedStep c ft fb m).2.trace = resetWritten m.trace := by
  cases hres : c.resetHigh <;>
    · dsimp only [cancelFeedStep, trackReadBufM, mp3ReadWRAM16, sciWriteTx,
        feedData, emit]
      repeat' split
      all_goals
        simp_all [feed32Count, resetWritten, isFeed32, isModeReset,
          List.filter, SCI_WRAMADDR, SCI_MODE]

/-- With a chip that never reports the cancel bit clear, the retry loop
consumes its whole budget: one feed frame per budgeted attempt, no success,
no `SCI_MODE` write, patch flag untouched. -/
lemma cancelDecodingLoop_never (c : Chip) (ft : Bool)
    (hr : c.resetHigh = true) (h16 : ∀ j, c.modeSeq j < 65536)
    (hC : ∀ j, c.modeSeq j &&& SM_CANCEL ≠ 0) :
    ∀ b fb m,
      (cancelDecodingLoop c ft b fb m).2 = false ∧
      feed32Count (cancelDecodingLoop c ft b fb m).1.trace
        = feed32Count m.trace + b ∧
      (cancelDecodingLoop c ft b fb m).1.isPatched = m.isPatched ∧
      resetWritten (cancelDecodingLoop c ft b fb m).1.trace
        = resetWritten m.trace := by
  intro b
  induction b with
  | zero => intro fb m; exact ⟨rfl, by simp [cancelDecodingLoop], rfl, rfl⟩
  | succ b ih =>
    intro fb m
    obtain ⟨hs1, hs2, hs3, hs4, hs5⟩ := cancelFeedStep_proj c ft fb m
    have hmod : ¬(c.modeSeq (cancelFeedStep c ft fb m).2.modeIx % 65536
        &&& SM_CANCEL == 0) = true := by
      rw [Nat.mod_eq_of_lt (h16 _)]
      simpa using hC _
    have e1 : cancelDecodingLoop c ft (b + 1) fb m
        = cancelDecodingLoop c ft b (cancelFeedStep c ft fb m).1
            (emit {(cancelFeedStep c ft fb m).2 with
              modeIx := (cancelFeedStep c ft fb m).2.modeIx + 1}
              (.sciRead SCI_MODE)) := by
      simp only [cancelDecodingLoop, sciReadTx, hr, Bool.not_true,
        Bool.false_eq_true, if_false, beq_self_eq_true, if_true, hmod]
    obtain ⟨i1, i2, i3, i4⟩ := ih (cancelFeedStep c ft fb m).1
      (emit {(cancelFeedStep c ft fb m).2 with
        modeIx := (cancelFeedStep c ft fb m).2.modeIx + 1} (.sciRead SCI_MODE))
    refine ⟨by rw [e1]; exact i1, ?_, ?_, ?_⟩
    · rw [e1, i2]
      simp only [emit_trace, feed32Count_append, feed32Count_sciRead, hs4]
      omega
    · rw [e1, i3]
      simp only [emit_isPatched]
      exact hs2
    · rw [e1, i4]
      simp only [emit_trace, resetWritten_append, resetWritten_sciRead,
        Bool.or_false]
      exact hs5

/-- When the first clear reading of the cancel bit is the `k`-th in-loop
check (0-based, `k` within budget), the retry loop stops successfully after
exactly `k + 1` feed frames, with no `SCI_MODE` write and the patch flag
untouched. -/
lemma cancelDecodingLoop_clears (c : Chip) (ft : Bool)
    (hr : c.resetHigh = true) (h16 : ∀ j, c.modeSeq j < 65536) :
    ∀ k b fb m, k < b →
      (∀ j, j < k → c.modeSeq (m.modeIx + j) &&& SM_CANCEL ≠ 0) →
      c.modeSeq (m.modeIx + k) &&& SM_CANCEL = 0 →
      (cancelDecodingLoop c ft b fb m).2 = true ∧
      feed32Count (cancelDecodingLoop c ft b fb m).1.trace
        = feed32Count m.trace + (k + 1) ∧
      (cancelDecodingLoop c ft b fb m).1.isPatched = m.isPatched ∧
      resetWritten (cancelDecodingLoop c ft b fb m).1.trace
        = resetWritten m.trace := by
  intro k
  induction k with
  | zero =>
    intro b fb m hkb _ hk0
    match b, hkb with
    | b + 1, _ =>
      obtain ⟨hs1, hs2, hs3, hs4, hs5⟩ := cancelFeedStep_proj c ft fb m
      have hmod : (c.modeSeq (cancelFeedStep c ft fb m).2.modeIx % 65536
          &&& SM_CANCEL == 0) = true := by
        rw [Nat.mod_eq_of_lt (h16 _), hs1]
        simpa using hk0
      have e1 : cancelDecodingLoop c ft (b + 1) fb m
          = (emit {(cancelFeedStep c ft fb m).2 with
              modeIx := (cancelFeedStep c ft fb m).2.modeIx + 1}
              (.sciRead SCI_MODE), true) := by
        simp only [cancelDecodingLoop, sciReadTx, hr, Bool.not_true,
          Bool.false_eq_true, if_false, beq_self_eq_true, if_true, hmod]
      rw [e1]
      refine ⟨rfl, ?_, by simpa using hs2, ?_⟩
      · simp only [emit_trace, feed32Count_append, feed32Count_sciRead, hs4]
      · simp only [emit_trace, resetWritten_append, resetWritten_sciRead,
          Bool.or_false]
        exact hs5
  | succ k ih =>
    intro b fb m hkb hber hk
    match b, hkb with
    | b + 1, _ =>
      obtain ⟨hs1, hs2, hs3, hs4, hs5⟩ := cancelFeedStep_proj c ft fb m
      have hmod : ¬(c.modeSeq (cancelFeedStep c ft fb m).2.modeIx % 65536
          &&& SM_CANCEL == 0) = true := by
        rw [Nat.mod_eq_of_lt (h16 _), hs1]
        have := hber 0 (Nat.succ_pos k)
        simpa using this
      have e1 : cancelDecodingLoop c ft (b + 1) fb m
          = cancelDecodingLoop c ft b (cancelFeedStep c ft fb m).1
              (emit {(cancelFeedStep c ft fb m).2 with
                modeIx := (cancelFeedStep c ft fb m).2.modeIx + 1}
                (.sciRead SCI_MODE)) := by
        simp only [cancelDecodingLoop, sciReadTx, hr, Bool.not_true,
          Bool.false_eq_true, if_false, beq_self_eq_true, if_true, hmod]
      have hmix : (emit {(cancelFeedStep c ft fb m).2 with
          modeIx := (cancelFeedStep c ft fb m).2.modeIx + 1}
          (.sciRead SCI_MODE)).modeIx = m.modeIx + 1 := by
        simp only [emit_modeIx]
        simp [hs1]
      obtain ⟨i1, i2, i3, i4⟩ := ih b (cancelFeedStep c ft fb m).1
        (emit {(cancelFeedStep c ft fb m).2 with
          modeIx := (cancelFeedStep c ft fb m).2.modeIx + 1} (.sciRead SCI_MODE))
        (by omega)
        (by intro j hj
            rw [hmix]
            have := hber (j + 1) (by omega)
            simpa [Nat.add_assoc, Nat.add_comm 1 j] using this)
        (by rw [hmix]
            have : m.modeIx + 1 + k = m.modeIx + (k + 1) := by omega
            rw [this]
            exact hk)
      rw [e1]
      refine ⟨i1, ?_, ?_, ?_⟩
      · rw [i2]
        simp only [emit_trace, feed32Count_append, feed32Count_sciRead, hs4]
        omega
      · rw [i3]
        simp only [emit_isPatched]
        exact hs2
      · rw [i4]
        simp only [emit_trace, resetWritten_append, resetWritten_sciRead,
          Bool.or_false]
        exact hs5


/-- A `SCI_MODE |= SM_CANCEL` write-back carries no reset bit when the read
value does not. -/
lemma modeCancelWrite_not_reset {x : Nat} (hx : x < 65536)
    (hres : x &&& SM_RESET = 0) :
    (x % 65536 ||| SM_CANCEL) % 65536 &&& SM_RESET = 0 := by
  rw [Nat.mod_eq_of_lt hx,
    Nat.mod_eq_of_lt (or_lt_65536 hx (by norm_num [SM_CANCEL])),
    and_or_right, hres]
  decide

/-- One flush attempt, out of reset: its reading is the second mode-stream
value, it consumes two mode readings, feeds exactly one 32-byte frame, and
(when the first reading is reset-free) writes no soft reset; everything
else is untouched. -/
lemma flushStep_proj (c : Chip) (m : Mach) (hr : c.resetHigh = true)
    (h16 : ∀ j, c.modeSeq j < 65536) :
    (flushStep c m).1 = c.modeSeq (m.modeIx + 1) % 65536 ∧
    (flushStep c m).2.modeIx = m.modeIx + 2 ∧
    (flushStep c m).2.isPatched = m.isPatched ∧
    feed32Count (flushStep c m).2.trace = feed32Count m.trace + 1 ∧
    (c.modeSeq m.modeIx &&& SM_RESET = 0 →
      resetWritten (flushStep c m).2.trace = resetWritten m.trace) := by
  refine ⟨?_, ?_, ?_, ?_, ?_⟩ <;>
    simp only [flushStep, sciReadTx, sciWriteTx, feedData, hr, Bool.not_true,
      Bool.false_eq_true, if_false, beq_self_eq_true, if_true, emit_trace,
      emit_modeIx, emit_isPatched, feed32Count_append, feed32Count_sciRead,
      feed32Count_sciWrite, feed32Count_feed, resetWritten_append,
      resetWritten_sciRead, resetWritten_feed, resetWritten_sciWrite]
  intro hres
  rw [modeCancelWrite_not_reset (h16 _) hres]
  simp

/-- Fields other than the trace and the mode cursor are untouched by a
flush attempt, for any chip. -/
lemma flushStep_frame (c : Chip) (m : Mach) :
    (flushStep c m).2.isSkipping = m.isSkipping ∧
    (flushStep c m).2.playing_state = m.playing_state ∧
    (flushStep c m).2.track = m.track ∧
    (flushStep c m).2.VolL = m.VolL ∧
    (flushStep c m).2.VolR = m.VolR ∧
    (flushStep c m).2.dreqIx = m.dreqIx ∧
    (flushStep c m).2.position = m.position ∧
    (flushStep c m).2.skipToPosition = m.skipToPosition ∧
    (flushStep c m).2.bufferOffset = m.bufferOffset ∧
    (flushStep c m).2.buf = m.buf ∧
    (flushStep c m).2.isPatched = m.isPatched ∧
    seeks (flushStep c m).2.trace = seeks m.trace := by
  cases hres : c.resetHigh <;>
    · dsimp only [flushStep, sciReadTx, sciWriteTx, feedData, emit]
      repeat' split
      all_goals simp_all [seeks]

/-- With a chip that never reports the cancel bit clear, the `flush_cancel`
retry loop consumes its whole budget: one 32-byte feed frame per attempt,
no success, patch flag untouched. -/
lemma flushCancelLoop_never (c : Chip) (mode : flush_m)
    (hr : c.resetHigh = true) (h16 : ∀ j, c.modeSeq j < 65536)
    (hC : ∀ j, c.modeSeq j &&& SM_CANCEL ≠ 0) :
    ∀ n m,
      (flushCancelLoop c mode n m).2 = false ∧
      feed32Count (flushCancelLoop c mode n m).1.trace
        = feed32Count m.trace + n ∧
      (flushCancelLoop c mode n m).1.isPatched = m.isPatched := by
  intro n
  induction n with
  | zero => intro m; exact ⟨rfl, by simp [flushCancelLoop], rfl⟩
  | succ n ih =>
    intro m
    obtain ⟨hs1, hs2, hs3, hs4, _⟩ := flushStep_proj c m hr h16
    have hmod : ¬((flushStep c m).1 &&& SM_CANCEL == 0) = true := by
      rw [hs1, Nat.mod_eq_of_lt (h16 _)]
      simpa using hC _
    have e1 : flushCancelLoop c mode (n + 1) m
        = flushCancelLoop c mode n (flushStep c m).2 := by
      simp only [flushCancelLoop, hmod, Bool.false_eq_true, if_false]
    obtain ⟨i1, i2, i3⟩ := ih (flushStep c m).2
    rw [e1]
    exact ⟨i1, by rw [i2, hs4]; omega, by rw [i3, hs3]⟩

/-- When the first clear reading of the cancel bit is the `k`-th attempt's
check (0-based, the mode reading at stream index `modeIx + 2k + 1`), the
`flush_cancel` retry loop stops successfully after exactly `k + 1` feed
frames, with no soft-reset write (given reset-free readings) and the patch
flag untouched. -/
lemma flushCancelLoop_clears (c : Chip) (mode : flush_m)
    (hr : c.resetHigh = true) (h16 : ∀ j, c.modeSeq j < 65536)
    (hR : ∀ j, c.modeSeq j &&& SM_RESET = 0) :
    ∀ k n m, k < n →
      (∀ j, j < k → c.modeSeq (m.modeIx + 2 * j + 1) &&& SM_CANCEL ≠ 0) →
      c.modeSeq (m.modeIx + 2 * k + 1) &&& SM_CANCEL = 0 →
      (flushCancelLoop c mode n m).2 = true ∧
      feed32Count (flushCancelLoop c mode n m).1.trace
        = feed32Count m.trace + (k + 1) ∧
      (flushCancelLoop c mode n m).1.isPatched = m.isPatched ∧
      resetWritten (flushCancelLoop c mode n m).1.trace
        = resetWritten m.trace := by
  intro k
  induction k with
  | zero =>
    intro n m hkn _ hk0
    match n, hkn with
    | n + 1, _ =>
      obtain ⟨hs1, hs2, hs3, hs4, hs5⟩ := flushStep_proj c m hr h16
      have hmod : ((flushStep c m).1 &&& SM_CANCEL == 0) = true := by
        rw [hs1, Nat.mod_eq_of_lt (h16 _)]
        simpa using hk0
      have e1 : flushCancelLoop c mode (n + 1) m
          = (if mode == .pre || mode == .both then feedData 2052 (flushStep c m).2
             else (flushStep c m).2, true) := by
        simp only [flushCancelLoop, hmod, if_true]
      rw [e1]
      have hres := hs5 (hR _)
      cases hm : (mode == .pre || mode == .both) <;>
        · simp only [hm, if_true, if_false, Bool.false_eq_true, feedData,
            emit_trace, emit_isPatched, feed32Count_append, feed32Count_feed,
            resetWritten_append, resetWritten_feed]
          refine ⟨trivial, ?_, ?_, ?_⟩ <;> simp [hs3, hs4, hres]
  | succ k ih =>
    intro n m hkn hber hk
    match n, hkn with
    | n + 1, _ =>
      obtain ⟨hs1, hs2, hs3, hs4, hs5⟩ := flushStep_proj c m hr h16
      have hmod : ¬((flushStep c m).1 &&& SM_CANCEL == 0) = true := by
        rw [hs1, Nat.mod_eq_of_lt (h16 _)]
        have := hber 0 (Nat.succ_pos k)
        simpa using this
      have e1 : flushCancelLoop c mode (n + 1) m
          = flushCancelLoop c mode n (flushStep c m).2 := by
        simp only [flushCancelLoop, hmod, Bool.false_eq_true, if_false]
      obtain ⟨i1, i2, i3, i4⟩ := ih n (flushStep c m).2 (by omega)
        (by intro j hj
            rw [hs2]
            have := hber (j + 1) (by omega)
            have harith : m.modeIx + 2 * (j + 1) + 1
                = m.modeIx + 2 + 2 * j + 1 := by omega
            rwa [harith] at this)
        (by rw [hs2]
            have harith : m.modeIx + 2 * (k + 1) + 1
                = m.modeIx + 2 + 2 * k + 1 := by omega
            rwa [harith] at hk)
      rw [e1]
      exact ⟨i1, by rw [i2, hs4]; omega, by rw [i3, hs3],
        by rw [i4, hs5 (hR _)]⟩

/-- A `SCI_MODE |= SM_RESET` write-back always carries the reset bit. -/
lemma modeResetWrite_hit {x : Nat} (hx : x < 65536) :
    ((x % 65536 ||| SM_RESET) % 65536 &&& SM_RESET != 0) = true := by
  rw [Nat.mod_eq_of_lt hx,
    Nat.mod_eq_of_lt (or_lt_65536 hx (by norm_num [SM_RESET])),
    and_or_right]
  simp only [SM_RESET, bne_iff_ne, ne_eq]
  intro h
  have h2 : (x &&& 4 ||| 4 &&& 4).testBit 2 = false := by rw [h]; simp
  rw [Nat.testBit_or] at h2
  simp at h2
  exact absurd h2.2 (by decide)

/-- `cancelDecoding` unfolded past its cancel-request preamble, out of
reset. -/
lemma cancelDecoding_eq (c : Chip) (ft : Bool) (fb : Nat) (m : Mach)
    (hr : c.resetHigh = true) :
    cancelDecoding c ft fb m
      = (let m1 := emit (emit {m with modeIx := m.modeIx + 1}
            (.sciRead SCI_MODE))
            (.sciWrite SCI_MODE ((c.modeSeq m.modeIx % 65536 ||| SM_CANCEL)
              % 65536));
         let l := cancelDecodingLoop c ft 64 (fb % 256) m1;
         if l.2 then l.1
         else
           let r2 := sciReadTx c SCI_MODE l.1
           {emit r2.2 (.sciWrite SCI_MODE ((r2.1 ||| SM_RESET) % 65536)) with
             isPatched := false}) := by
  simp only [cancelDecoding, sciReadTx, sciWriteTx, hr, Bool.not_true,
    Bool.false_eq_true, if_false, beq_self_eq_true, if_true]

/-- `flush_cancel` unfolded past its end-fill-byte read and optional
pre-flush, out of reset. -/
lemma flush_cancel_eq (c : Chip) (mode : flush_m) (m : Mach)
    (hr : c.resetHigh = true) :
    flush_cancel c mode m
      = (let m0 := emit (emit m (.sciWrite SCI_WRAMADDR
            (para_endFillByte % 65536))) (.sciRead SCI_WRAM);
         let m1 := if mode == .post || mode == .both then feedData 2052 m0
           else m0;
         let l := flushCancelLoop c mode 64 m1;
         if l.2 then l.1
         else
           let r2 := sciReadTx c SCI_MODE l.1
           {emit r2.2 (.sciWrite SCI_MODE ((r2.1 ||| SM_RESET) % 65536)) with
             isPatched := false}) := by
  simp only [flush_cancel, mp3ReadWRAM16, sciReadTx, sciWriteTx, feedData, hr,
    Bool.not_true, Bool.false_eq_true, if_false, beq_self_eq_true, if_true]

/-- The `flush_cancel` preamble: end-fill-byte read then the optional
pre-flush frame.  Its trace carries no 32-byte frame, no mode write and no
seek, and the mode cursor is untouched. -/
lemma flushPreamble_facts (_c : Chip) (mode : flush_m) (m : Mach) :
    (if (mode == flush_m.post || mode == flush_m.both) = true then
        feedData 2052 (emit (emit m (.sciWrite SCI_WRAMADDR
          (para_endFillByte % 65536))) (.sciRead SCI_WRAM))
      else emit (emit m (.sciWrite SCI_WRAMADDR (para_endFillByte % 65536)))
        (.sciRead SCI_WRAM)).modeIx = m.modeIx ∧
    feed32Count (if (mode == flush_m.post || mode == flush_m.both) = true then
        feedData 2052 (emit (emit m (.sciWrite SCI_WRAMADDR
          (para_endFillByte % 65536))) (.sciRead SCI_WRAM))
      else emit (emit m (.sciWrite SCI_WRAMADDR (para_endFillByte % 65536)))
        (.sciRead SCI_WRAM)).trace = feed32Count m.trace ∧
    resetWritten (if (mode == flush_m.post || mode == flush_m.both) = true then
        feedData 2052 (emit (emit m (.sciWrite SCI_WRAMADDR
          (para_endFillByte % 65536))) (.sciRead SCI_WRAM))
      else emit (emit m (.sciWrite SCI_WRAMADDR (para_endFillByte % 65536)))
        (.sciRead SCI_WRAM)).trace = resetWritten m.trace ∧
    (if (mode == flush_m.post || mode == flush_m.both) = true then
        feedData 2052 (emit (emit m (.sciWrite SCI_WRAMADDR
          (para_endFillByte % 65536))) (.sciRead SCI_WRAM))
      else emit (emit m (.sciWrite SCI_WRAMADDR (para_endFillByte % 65536)))
        (.sciRead SCI_WRAM)).isPatched = m.isPatched := by
  cases hm : (mode == flush_m.post || mode == flush_m.both) <;>
    simp [hm, feedData, isFeed32, isModeReset, SCI_WRAMADDR, SCI_MODE]

/-- C2: the cancel handshake against a chip whose `SM_CANCEL` bit never
reads back clear performs exactly 64 feed iterations of one 32-byte quantum
each, then writes a soft reset (`SM_RESET`) to the mode register and clears
the patch-applied flag — both for `cancelDecoding` (either feeding mode) and
for the retry loop of `flush_cancel` (any flush mode).  If instead the bit
first reads clear at the check of iteration `k + 1` (`k` 0-based, `k < 64`;
for `cancelDecoding` that is mode-stream reading `1 + k` after the initial
request read, for `flush_cancel` reading `2k + 1`), the handshake stops
after exactly `k + 1` feed iterations, with no soft reset and the patch
flag unchanged.  The machine starts with a clean trace and mode cursor; the
chip returns 16-bit mode values, reset-free in the no-reset parts. -/
theorem cancel_handshake_budget (c : Chip) (ft : Bool) (fb : Nat)
    (mode : flush_m) (m : Mach)
    (hr : c.resetHigh = true) (h16 : ∀ j, c.modeSeq j < 65536)
    (htr : m.trace = []) (hix : m.modeIx = 0) :
    ((∀ j, c.modeSeq j &&& SM_CANCEL ≠ 0) →
      feed32Count (cancelDecoding c ft fb m).trace = 64 ∧
      resetWritten (cancelDecoding c ft fb m).trace = true ∧
      (cancelDecoding c ft fb m).isPatched = false) ∧
    ((∀ j, c.modeSeq j &&& SM_CANCEL ≠ 0) →
      feed32Count (flush_cancel c mode m).trace = 64 ∧
      resetWritten (flush_cancel c mode m).trace = true ∧
      (flush_cancel c mode m).isPatched = false) ∧
    (∀ k, k < 64 →
      (∀ j, j < k → c.modeSeq (1 + j) &&& SM_CANCEL ≠ 0) →
      c.modeSeq (1 + k) &&& SM_CANCEL = 0 →
      (∀ j, c.modeSeq j &&& SM_RESET = 0) →
      feed32Count (cancelDecoding c ft fb m).trace = k + 1 ∧
      resetWritten (cancelDecoding c ft fb m).trace = false ∧
      (cancelDecoding c ft fb m).isPatched = m.isPatched) ∧
    (∀ k, k < 64 →
      (∀ j, j < k → c.modeSeq (2 * j + 1) &&& SM_CANCEL ≠ 0) →
      c.modeSeq (2 * k + 1) &&& SM_CANCEL = 0 →
      (∀ j, c.modeSeq j &&& SM_RESET = 0) →
      feed32Count (flush_cancel c mode m).trace = k + 1 ∧
      resetWritten (flush_cancel c mode m).trace = false ∧
      (flush_cancel c mode m).isPatched = m.isPatched) := by
  refine ⟨?_, ?_, ?_, ?_⟩
  · -- cancelDecoding, never clears
    intro hC
    rw [cancelDecoding_eq c ft fb m hr]
    dsimp only
    set M1 := emit (emit {m with modeIx := m.modeIx + 1} (.sciRead SCI_MODE))
      (.sciWrite SCI_MODE ((c.modeSeq m.modeIx % 65536 ||| SM_CANCEL) % 65536))
      with hM1
    obtain ⟨l1, l2, l3, l4⟩ :=
      cancelDecodingLoop_never c ft hr h16 hC 64 (fb % 256) M1
    rw [l1]
    simp only [Bool.false_eq_true, if_false, sciReadTx, hr, Bool.not_true,
      beq_self_eq_true, if_true]
    refine ⟨?_, ?_, trivial⟩
    · simp only [emit_trace, feed32Count_append, feed32Count_sciRead,
        feed32Count_sciWrite]
      rw [l2, hM1]
      simp [htr, isFeed32]
    · simp only [emit_trace, resetWritten_append, resetWritten_sciRead,
        resetWritten_sciWrite, beq_self_eq_true, Bool.true_and]
      rw [modeResetWrite_hit (h16 _)]
      simp
  · -- flush_cancel, never clears
    intro hC
    rw [flush_cancel_eq c mode m hr]
    dsimp only
    obtain ⟨hp1, hp2, hp3, hp4⟩ := flushPreamble_facts c mode m
    set M1 := if (mode == flush_m.post || mode == flush_m.both) = true then
        feedData 2052 (emit (emit m (.sciWrite SCI_WRAMADDR
          (para_endFillByte % 65536))) (.sciRead SCI_WRAM))
      else emit (emit m (.sciWrite SCI_WRAMADDR (para_endFillByte % 65536)))
        (.sciRead SCI_WRAM) with hM1
    obtain ⟨l1, l2, l3⟩ := flushCancelLoop_never c mode hr h16 hC 64 M1
    rw [l1]
    simp only [Bool.false_eq_true, if_false, sciReadTx, hr, Bool.not_true,
      beq_self_eq_true, if_true]
    refine ⟨?_, ?_, trivial⟩
    · simp only [emit_trace, feed32Count_append, feed32Count_sciRead,
        feed32Count_sciWrite]
      rw [l2, hp2, htr]
      simp [feed32Count]
    · simp only [emit_trace, resetWritten_append, resetWritten_sciRead,
        resetWritten_sciWrite, beq_self_eq_true, Bool.true_and]
      rw [modeResetWrite_hit (h16 _)]
      simp
  · -- cancelDecoding, clears at check k
    intro k hk hber hclr hR
    rw [cancelDecoding_eq c ft fb m hr]
    dsimp only
    set M1 := emit (emit {m with modeIx := m.modeIx + 1} (.sciRead SCI_MODE))
      (.sciWrite SCI_MODE ((c.modeSeq m.modeIx % 65536 ||| SM_CANCEL) % 65536))
      with hM1
    have hM1ix : M1.modeIx = 1 := by rw [hM1]; simp [hix]
    have hM1fc : feed32Count M1.trace = 0 := by rw [hM1]; simp [htr, isFeed32]
    have hM1rw : resetWritten M1.trace = false := by
      rw [hM1]
      simp only [emit_trace, resetWritten_append, resetWritten_sciRead,
        resetWritten_sciWrite, htr, resetWritten_nil, beq_self_eq_true,
        Bool.true_and, Bool.false_or]
      rw [show (c.modeSeq m.modeIx % 65536 ||| SM_CANCEL) % 65536 &&& SM_RESET
            = 0 from modeCancelWrite_not_reset (h16 _) (hR _)]
      simp
    have hM1p : M1.isPatched = m.isPatched := by rw [hM1]; simp
    obtain ⟨l1, l2, l3, l4⟩ :=
      cancelDecodingLoop_clears c ft hr h16 k 64 (fb % 256) M1 hk
        (by intro j hj; rw [hM1ix]; exact hber j hj)
        (by rw [hM1ix]; exact hclr)
    rw [l1]
    simp only [if_true]
    refine ⟨?_, ?_, ?_⟩
    · rw [l2, hM1fc]
      omega
    · rw [l4, hM1rw]
    · rw [l3, hM1p]
  · -- flush_cancel, clears at check k
    intro k hk hber hclr hR
    rw [flush_cancel_eq c mode m hr]
    dsimp only
    obtain ⟨hp1, hp2, hp3, hp4⟩ := flushPreamble_facts c mode m
    set M1 := if (mode == flush_m.post || mode == flush_m.both) = true then
        feedData 2052 (emit (emit m (.sciWrite SCI_WRAMADDR
          (para_endFillByte % 65536))) (.sciRead SCI_WRAM))
      else emit (emit m (.sciWrite SCI_WRAMADDR (para_endFillByte % 65536)))
        (.sciRead SCI_WRAM) with hM1
    have hM1ix : M1.modeIx = 0 := by rw [hp1, hix]
    obtain ⟨l1, l2, l3, l4⟩ :=
      flushCancelLoop_clears c mode hr h16 hR k 64 M1 hk
        (by intro j hj
            rw [hM1ix]
            simpa using hber j hj)
        (by rw [hM1ix]
            simpa using hclr)
    rw [l1]
    simp only [if_true]
    refine ⟨?_, ?_, ?_⟩
    · rw [l2, hp2, htr]
      simp [feed32Count]
    · rw [l4, hp3, htr]
      simp
    · rw [l3, hp4]

/-- Witness for C2: the never-clearing chip (`chip128`) drives both
handshakes to 64 feeds, a soft reset and a cleared patch flag; the chip
whose cancel bit clears at the second check (`chipEager`) stops
`cancelDecoding` after 2 feeds with no reset and the patch flag intact. -/
theorem cancel_handshake_budget_witness :
    feed32Count (cancelDecoding chip128 false 0xAA machBase).trace = 64 ∧
    resetWritten (cancelDecoding chip128 false 0xAA machBase).trace = true ∧
    (cancelDecoding chip128 false 0xAA machBase).isPatched = false ∧
    feed32Count (flush_cancel chip128 flush_m.pre machBase).trace = 64 ∧
    (flush_cancel chip128 flush_m.pre machBase).isPatched = false ∧
    feed32Count (cancelDecoding chipEager true 0 machBase).trace = 1 + 1 ∧
    resetWritten (cancelDecoding chipEager true 0 machBase).trace = false ∧
    (cancelDecoding chipEager true 0 machBase).isPatched
      = machBase.isPatched := by
  have h16a : ∀ j, chip128.modeSeq j < 65536 := fun j => by
    simp [chip128, SM_CANCEL]
  have hCa : ∀ j, chip128.modeSeq j &&& SM_CANCEL ≠ 0 := fun j => by
    simp only [chip128]
    decide
  have h16b : ∀ j, chipEager.modeSeq j < 65536 := fun j => by
    simp only [chipEager]
    split <;> norm_num [SM_CANCEL]
  have hRb : ∀ j, chipEager.modeSeq j &&& SM_RESET = 0 := fun j => by
    simp only [chipEager]
    split <;> decide
  have ha := cancel_handshake_budget chip128 false 0xAA flush_m.pre machBase
    rfl h16a rfl rfl
  have hb := cancel_handshake_budget chipEager true 0 flush_m.pre machBase
    rfl h16b rfl rfl
  obtain ⟨b1, b2, b3⟩ := hb.2.2.1 1 (by omega)
    (fun j hj => by
      have : j = 0 := by omega
      subst this
      decide)
    (by decide) hRb
  exact ⟨(ha.1 hCa).1, (ha.1 hCa).2.1, (ha.1 hCa).2.2, (ha.2.1 hCa).1,
    (ha.2.1 hCa).2.2, b1, b2, b3⟩

/-! # Claim C6 -/

/-- The cancel retry loop never touches the fast-forward flag. -/
lemma cancelDecodingLoop_isSkipping (c : Chip) (ft : Bool) :
    ∀ b fb m, (cancelDecodingLoop c ft b fb m).1.isSkipping = m.isSkipping := by
  intro b
  induction b with
  | zero => intro fb m; rfl
  | succ b ih =>
    intro fb m
    obtain ⟨_, _, hs3, _, _⟩ := cancelFeedStep_proj c ft fb m
    cases hres : c.resetHigh
    · simp [cancelDecodingLoop, sciReadTx, hres, SM_CANCEL, hs3]
    · simp only [cancelDecodingLoop, sciReadTx, hres, Bool.not_true,
        Bool.false_eq_true, if_false, beq_self_eq_true, if_true]
      split
      · simp [hs3]
      · rw [ih]
        simp [hs3]

/-- `cancelDecoding` never touches the fast-forward flag. -/
lemma cancelDecoding_isSkipping (c : Chip) (ft : Bool) (fb : Nat) (m : Mach) :
    (cancelDecoding c ft fb m).isSkipping = m.isSkipping := by
  unfold cancelDecoding
  cases hres : c.resetHigh <;>
    · dsimp only [sciReadTx, sciWriteTx]
      simp only [hres, Bool.not_true, Bool.not_false, Bool.false_eq_true,
        if_false, if_true, beq_self_eq_true]
      split <;> simp [cancelDecodingLoop_isSkipping]

/-- The post-loop check is inert when the fast-forward flag is clear. -/
lemma skipDoneCheck_of_clear (c : Chip) (x : Mach) (h : x.isSkipping = false) :
    skipDoneCheck c x = x := by
  simp [skipDoneCheck, h]

/-- The track-end break ends in `ready` with storage closed, and keeps the
fast-forward flag. -/
lemma refillTrackEnd_facts (c : Chip) (x : Mach) :
    (refillTrackEnd c x).playing_state = .ready ∧
    (refillTrackEnd c x).track.isOpen = false ∧
    (refillTrackEnd c x).isSkipping = x.isSkipping := by
  refine ⟨by simp [refillTrackEnd], by simp [refillTrackEnd, closeM], ?_⟩
  simp [refillTrackEnd, closeM, fillEnd, feedData, mp3ReadWRAM16, sciWriteTx,
    cancelDecoding_isSkipping]
  cases c.resetHigh <;> simp [cancelDecoding_isSkipping]

/-- The `cancelling` break ends in `ready` with storage closed, and keeps
the fast-forward flag. -/
lemma refillCancelling_facts (c : Chip) (x : Mach) :
    (refillCancelling c x).playing_state = .ready ∧
    (refillCancelling c x).track.isOpen = false ∧
    (refillCancelling c x).isSkipping = x.isSkipping := by
  refine ⟨by simp [refillCancelling], by simp [refillCancelling, closeM], ?_⟩
  simp [refillCancelling, closeM, fillEnd, feedData, mp3ReadWRAM16, sciWriteTx,
    cancelDecoding_isSkipping]
  cases c.resetHigh <;> simp [cancelDecoding_isSkipping]

/-- Buffer-chunk reads touch only the buffer, the track position and the
trace. -/
lemma trackReadBufM_frame (n : Nat) (x : Mach) :
    (trackReadBufM n x).2.playing_state = x.playing_state ∧
    (trackReadBufM n x).2.isSkipping = x.isSkipping ∧
    (trackReadBufM n x).2.bufferOffset = x.bufferOffset := by
  simp [trackReadBufM]

/-- A loop-body iteration entered in `cancelling` breaks out with storage
closed and state `ready`, keeping the fast-forward flag. -/
lemma refillBody_cancelling (c : Chip) (m : Mach)
    (hst : m.playing_state = .cancelling) :
    ∃ y, refillBody c m = .done y ∧ y.playing_state = .ready ∧
      y.track.isOpen = false ∧ y.isSkipping = m.isSkipping := by
  obtain ⟨t1, t2, t3⟩ := trackReadBufM_frame BUFFER_SIZE m
  unfold refillBody
  by_cases hb : m.bufferOffset = BUFFER_SIZE
  · by_cases hcnt : (trackReadBufM BUFFER_SIZE m).1 = 0
    · obtain ⟨f1, f2, f3⟩ := refillTrackEnd_facts c (trackReadBufM BUFFER_SIZE m).2
      refine ⟨_, by simp [hb, hcnt], f1, f2, ?_⟩
      rw [f3, t2]
    · obtain ⟨f1, f2, f3⟩ := refillCancelling_facts c
        {(trackReadBufM BUFFER_SIZE m).2 with bufferOffset := 0}
      refine ⟨_, by simp [hb, hcnt, t1, hst], f1, f2, ?_⟩
      rw [f3]
      simpa using t2
  · obtain ⟨f1, f2, f3⟩ := refillCancelling_facts c m
    exact ⟨_, by simp [hb, hst], f1, f2, f3⟩

/-- A loop-body iteration entered in `playback` at end-of-stream with an
exhausted buffer takes the track-end break: storage closed, state `ready`,
fast-forward flag kept. -/
lemma refillBody_eof (c : Chip) (m : Mach)
    (hbuf : m.bufferOffset = BUFFER_SIZE)
    (heof : m.track.data.length ≤ m.track.pos) :
    ∃ y, refillBody c m = .done y ∧ y.playing_state = .ready ∧
      y.track.isOpen = false ∧ y.isSkipping = m.isSkipping := by
  obtain ⟨t1, t2, t3⟩ := trackReadBufM_frame BUFFER_SIZE m
  have hcnt : (trackReadBufM BUFFER_SIZE m).1 = 0 := by
    simp only [trackReadBufM, trackReadBuf]
    omega
  obtain ⟨f1, f2, f3⟩ := refillTrackEnd_facts c (trackReadBufM BUFFER_SIZE m).2
  refine ⟨_, by simp [refillBody, hbuf, hcnt], f1, f2, ?_⟩
  rw [f3, t2]

/-- One refill cycle whose first loop-body iteration breaks: the cycle
returns that break state (the skip-completion check is inert when the
fast-forward flag is clear). -/
lemma refill_of_body_done (c : Chip) (fuel : Nat) (x y : Mach)
    (hd : c.dreq x.dreqIx = true)
    (hy : refillBody c {x with dreqIx := x.dreqIx + 1} = .done y)
    (hsk : y.isSkipping = false) :
    refill c (fuel + 1) x = some y := by
  have he : refillLoop c (fuel + 1) x = some y := by
    simp only [refillLoop, hd, Bool.not_true, Bool.false_eq_true, if_false, hy]
  simp [refill, he, skipDoneCheck_of_clear c y hsk]

/-- C6: on an OGG session (playing or paused, chip out of reset, chip
asking for data), `skipTo t` with `t ≥ duration` returns 0 and parks the
session in `cancelling`; the next refill cycle then ends with state `ready`
and the storage handle closed — exactly the terminal outcome of a session
that reaches end-of-file naturally (playback state, exhausted buffer, read
at EOF), whose next refill cycle ends in the same `ready`-and-closed
configuration. -/
theorem skipTo_end_equals_eof (c : Chip) (fuel t : Nat) (m me : Mach)
    (hr : c.resetHigh = true)
    (hst : m.playing_state = .playback ∨ m.playing_state = .paused_playback)
    (hfmt : m.trackFormat = .ogg)
    (ht : m.duration ≤ t)
    (hd : c.dreq m.dreqIx = true)
    (hsk : m.isSkipping = false)
    (_hest : me.playing_state = .playback)
    (hebuf : me.bufferOffset = BUFFER_SIZE)
    (heof : me.track.data.length ≤ me.track.pos)
    (hed : c.dreq me.dreqIx = true)
    (hesk : me.isSkipping = false) :
    ∃ m1 m2 m3,
      skipTo c fuel t m = some (0, m1) ∧ m1.playing_state = .cancelling ∧
      refill c (fuel + 1) m1 = some m2 ∧
      refill c (fuel + 1) me = some m3 ∧
      m2.playing_state = .ready ∧ m2.track.isOpen = false ∧
      m3.playing_state = .ready ∧ m3.track.isOpen = false := by
  have hbusy : isBusy c m.playing_state = 1 := by
    rcases hst with h | h <;> simp [isBusy, hr, h]
  have e0 : skipTo c fuel t m = some (0, {m with
      skipToPosition := m.duration % 65536, playing_state := .cancelling}) := by
    unfold skipTo
    rw [hbusy]
    simp [hfmt, ht]
  obtain ⟨y, hy, f1, f2, f3⟩ := refillBody_cancelling c
    {m with skipToPosition := m.duration % 65536,
            playing_state := state_m.cancelling, dreqIx := m.dreqIx + 1} rfl
  have hsky : y.isSkipping = false := by
    rw [f3]
    simpa using hsk
  have h1 : refill c (fuel + 1) ({m with
      skipToPosition := m.duration % 65536,
      playing_state := state_m.cancelling} : Mach) = some y :=
    refill_of_body_done c fuel _ y (by simpa using hd) hy hsky
  obtain ⟨z, hz, g1, g2, g3⟩ := refillBody_eof c
    {me with dreqIx := me.dreqIx + 1} (by simpa using hebuf)
    (by simpa using heof)
  have hskz : z.isSkipping = false := by
    rw [g3]
    simpa using hesk
  have h2 : refill c (fuel + 1) me = some z :=
    refill_of_body_done c fuel me z hed hz hskz
  exact ⟨_, y, z, e0, rfl, h1, h2, f1, f2, g1, g2⟩

/-- Witness for C6 on a concrete OGG session and a concrete EOF session. -/
theorem skipTo_end_equals_eof_witness :
    ∃ m1 m2 m3,
      skipTo chipOnce 2 7 mOggPlay = some (0, m1) ∧
      m1.playing_state = .cancelling ∧
      refill chipOnce 3 m1 = some m2 ∧
      refill chipOnce 3 mOggEof = some m3 ∧
      m2.playing_state = .ready ∧ m2.track.isOpen = false ∧
      m3.playing_state = .ready ∧ m3.track.isOpen = false :=
  skipTo_end_equals_eof chipOnce 2 7 mOggPlay mOggEof rfl (Or.inl rfl) rfl
    (by decide) (by decide) rfl rfl (by decide) (by decide) (by decide) rfl

/-! # Claim C4 -/

/-- A refill cycle against a chip that is not requesting data does nothing
but consume one DREQ poll. -/
lemma refill_dreq_false (c : Chip) (fuel : Nat) (x : Mach)
    (hdreq : ∀ i, c.dreq i = false) (hsk : x.isSkipping = false) :
    refill c (fuel + 1) x = some {x with dreqIx := x.dreqIx + 1} := by
  have he : refillLoop c (fuel + 1) x
      = some {x with dreqIx := x.dreqIx + 1} := by
    simp [refillLoop, hdreq]
  have hsk2 : ({x with dreqIx := x.dreqIx + 1} : Mach).isSkipping = false := by
    simpa using hsk
  simp [refill, he, skipDoneCheck_of_clear c _ hsk2]

/-- The byte-rate read issued during active playback against an idle chip:
the two wrapped transactions each pause and resume the stream, the embedded
refills are no-ops, and the session fields other than the trace and the
DREQ cursor are untouched. -/
lemma Mp3ReadWRAMFull_playback_idle (c : Chip) (fuel a : Nat) (m : Mach)
    (hr : c.resetHigh = true) (hst : m.playing_state = .playback)
    (hdreq : ∀ i, c.dreq i = false) (hsk : m.isSkipping = false) :
    ∃ m2, Mp3ReadWRAMFull c (fuel + 1) a m = some (c.wramVal a % 65536, m2) ∧
      m2.playing_state = .playback ∧ m2.trackFormat = m.trackFormat ∧
      m2.track = m.track ∧ m2.start_of_music = m.start_of_music ∧
      m2.isSkipping = false ∧ m2.duration = m.duration ∧
      m2.VolL = m.VolL ∧ m2.VolR = m.VolR ∧ m2.bitrate = m.bitrate ∧
      seeks m2.trace = seeks m.trace := by
  have h1 : Mp3WriteRegisterFull c (fuel + 1) SCI_WRAMADDR a m
      = some {emit m (.sciWrite SCI_WRAMADDR (a % 65536)) with
          dreqIx := m.dreqIx + 1} := by
    unfold Mp3WriteRegisterFull sciWriteTx
    simp only [hr, Bool.not_true, Bool.false_eq_true, if_false, if_true]
    rw [if_pos (by simpa using hst)]
    rw [refill_dreq_false c fuel _ hdreq (by simpa using hsk)]
    rfl
  unfold Mp3ReadWRAMFull
  rw [h1]
  simp only [hr, Bool.not_true, Bool.false_eq_true, if_false]
  rw [if_pos (by simpa using hst)]
  rw [refill_dreq_false c fuel _ hdreq (by simpa using hsk)]
  refine ⟨_, rfl, ?_, ?_, ?_, ?_, ?_, ?_, ?_, ?_, ?_, ?_⟩ <;> simp [hsk, hst]

/-- The whole `flush_cancel` retry loop touches only the trace (no seek),
the mode cursor and the buffered-feed bookkeeping it owns: state, track,
volume, flags and position survive, for any chip. -/
lemma flushCancelLoop_frame (c : Chip) (mode : flush_m) :
    ∀ n m,
      (flushCancelLoop c mode n m).1.playing_state = m.playing_state ∧
      (flushCancelLoop c mode n m).1.track = m.track ∧
      (flushCancelLoop c mode n m).1.isSkipping = m.isSkipping ∧
      (flushCancelLoop c mode n m).1.VolL = m.VolL ∧
      (flushCancelLoop c mode n m).1.VolR = m.VolR ∧
      seeks (flushCancelLoop c mode n m).1.trace = seeks m.trace := by
  intro n
  induction n with
  | zero => intro m; exact ⟨rfl, rfl, rfl, rfl, rfl, rfl⟩
  | succ n ih =>
    intro m
    obtain ⟨s1, s2, s3, s4, s5, s6, s7, s8, s9, s10, s11, s12⟩ :=
      flushStep_frame c m
    simp only [flushCancelLoop]
    split
    · split <;>
        simp [feedData, s1, s2, s3, s4, s5, s6, s7, s8, s12]
    · obtain ⟨i1, i2, i3, i4, i5, i6⟩ := ih (flushStep c m).2
      refine ⟨?_, ?_, ?_, ?_, ?_, ?_⟩ <;>
        simp [i1, i2, i3, i4, i5, i6, s1, s2, s3, s4, s5, s6, s12]

/-- `flush_cancel` touches only the trace (no seek), the mode cursor, the
patch flag and the feed bookkeeping: state, track, volume, flags
survive. -/
lemma flush_cancel_frame (c : Chip) (mode : flush_m) (m : Mach) :
    (flush_cancel c mode m).playing_state = m.playing_state ∧
    (flush_cancel c mode m).track = m.track ∧
    (flush_cancel c mode m).isSkipping = m.isSkipping ∧
    (flush_cancel c mode m).VolL = m.VolL ∧
    (flush_cancel c mode m).VolR = m.VolR ∧
    seeks (flush_cancel c mode m).trace = seeks m.trace := by
  unfold flush_cancel mp3ReadWRAM16 sciWriteTx sciReadTx
  cases hres : c.resetHigh <;>
    · simp only [hres, Bool.not_true, Bool.not_false, Bool.false_eq_true,
        if_false, if_true, beq_self_eq_true]
      repeat' split
      all_goals
        simp [feedData, flushCancelLoop_frame]

/-- `flush_cancel` never touches storage: no seek events are produced. -/
theorem flush_cancel_seeks (c : Chip) (mode : flush_m) (m : Mach) :
    seeks (flush_cancel c mode m).trace = seeks m.trace :=
  (flush_cancel_frame c mode m).2.2.2.2.2

/-- `flush_cancel` leaves the skip-mode flag unchanged. -/
theorem flush_cancel_isSkipping (c : Chip) (mode : flush_m) (m : Mach) :
    (flush_cancel c mode m).isSkipping = m.isSkipping :=
  (flush_cancel_frame c mode m).2.2.1

/-- C4: on a 128 kbps frame-coded (MP3) playback session positioned at
playback position 0 (storage at `start_of_music`), with the chip reporting
the spec's byte rate `128000/8/1000` for such a stream and currently not
requesting data, `skip 10` computes the target storage byte offset
`10 * (128000/8/1000) + start_of_music` and issues exactly that one seek to
storage: the seek offsets added to the trace are precisely that offset. -/
theorem skip_128kbps_seek (c : Chip) (fuel : Nat) (m : Mach)
    (hr : c.resetHigh = true)
    (hst : m.playing_state = .playback)
    (hfmt : m.trackFormat = .mp3)
    (hbr : c.wramVal para_byteRate = 128000 / 8 / 1000)
    (hpos : m.track.pos = m.start_of_music)
    (hdreq : ∀ i, c.dreq i = false)
    (hsk : m.isSkipping = false)
    (hwrap : 10 * (128000 / 8 / 1000) + m.start_of_music < 4294967296) :
    ∃ r m2, skip c (fuel + 1) 10 m = some (r, m2) ∧
      seeks m2.trace
        = seeks m.trace ++ [10 * (128000 / 8 / 1000) + m.start_of_music] := by
  obtain ⟨mA, hA, a1, a2, a3, a4, a5, a6, a7, a8, a9, a10⟩ :=
    Mp3ReadWRAMFull_playback_idle c fuel para_byteRate m hr hst hdreq hsk
  have hbusy : isBusy c m.playing_state = 1 := by simp [isBusy, hr, hst]
  have hguard : (isBusy c m.playing_state != 1 || (10 : Int) == 0) = false := by
    rw [hbusy]
    decide
  have hogg : (m.trackFormat == format_m.ogg) = false := by
    rw [hfmt]
    decide
  have hbr16 : c.wramVal para_byteRate % 65536 = 16 := by
    rw [hbr]
  have hskip_eq : skip c (fuel + 1) 10 m = skipTo c (fuel + 1) 10 mA := by
    unfold skip
    rw [hguard, hA]
    simp only [Bool.false_eq_true, if_false, hogg]
    rw [hbr16]
    have hd0 : (mA.track.pos + 4294967296 - m.start_of_music) % 4294967296
        = 0 := by
      rw [a3, hpos]
      omega
    rw [hd0]
    norm_num
    rfl
  have hbusyA : isBusy c mA.playing_state = 1 := by simp [isBusy, hr, a1]
  have hoggA : (mA.trackFormat == format_m.ogg) = false := by
    rw [a2, hfmt]
    decide
  have hoff : (10 * (c.wramVal para_byteRate % 65536) + mA.start_of_music)
      % 4294967296 = 160 + m.start_of_music := by
    rw [hbr16, a4]
    have h160 : (10 : Nat) * (128000 / 8 / 1000) = 160 := by norm_num
    rw [h160] at hwrap
    omega
  have hseek160 : (10 : Nat) * (128000 / 8 / 1000) + m.start_of_music
      = 160 + m.start_of_music := by norm_num
  rw [hskip_eq, hseek160]
  unfold skipTo
  rw [hbusyA]
  simp only [bne_self_eq_false, Bool.false_eq_true, if_false, hoggA]
  unfold mp3ReadWRAM16 sciWriteTx seekSetM
  simp only [hr, Bool.not_true, Bool.false_eq_true, if_false, if_true]
  rw [hoff]
  by_cases hok : 160 + m.start_of_music
      ≤ (emit (emit {mA with playing_state := state_m.paused_playback}
          (Ev.sciWrite SCI_WRAMADDR (para_byteRate % 65536)))
          (Ev.sciRead SCI_WRAM)).track.data.length
  · rw [if_pos hok]
    simp only [Bool.not_true, Bool.false_eq_true, if_false]
    set mB := emit {(emit (emit {mA with playing_state := state_m.paused_playback}
        (Ev.sciWrite SCI_WRAMADDR (para_byteRate % 65536)))
        (Ev.sciRead SCI_WRAM)) with
      track := {(emit (emit {mA with playing_state := state_m.paused_playback}
        (Ev.sciWrite SCI_WRAMADDR (para_byteRate % 65536)))
        (Ev.sciRead SCI_WRAM)).track with pos := 160 + m.start_of_music}}
      (Ev.stSeek (160 + m.start_of_music)) with hmB
    have hskB : (flush_cancel c flush_m.pre
        (emit mB (Ev.sciWrite SCI_VOL (0xFEFE % 65536)))).isSkipping
        = false := by
      rw [flush_cancel_isSkipping, emit_isSkipping, hmB]
      simp [a5]
    have hsk5 : (emit (emit (flush_cancel c flush_m.pre
        (emit mB (Ev.sciWrite SCI_VOL (0xFEFE % 65536))))
        (Ev.sciWrite SCI_DECODE_TIME (10 % 65536)))
        (Ev.sciWrite SCI_DECODE_TIME (10 % 65536))).isSkipping = false := by
      simpa using hskB
    rw [refill_dreq_false c fuel _ hdreq hsk5]
    refine ⟨0, _, rfl, ?_⟩
    simp [flush_cancel_seeks, hmB, a10]
  · rw [if_neg hok]
    simp only [Bool.not_false, if_true]
    refine ⟨2, _, rfl, ?_⟩
    simp [a10]

/-- Witness for C4 at a concrete chip and machine. -/
theorem skip_128kbps_seek_witness :
    ∃ r m2, skip chip128 2 10 mMp3Play = some (r, m2) ∧
      seeks m2.trace = seeks mMp3Play.trace
        ++ [10 * (128000 / 8 / 1000) + mMp3Play.start_of_music] :=
  skip_128kbps_seek chip128 1 mMp3Play rfl rfl rfl (by decide) rfl
    (fun _ => rfl) rfl (by decide)
